import Mathlib

/-!
Verification development for the AgroChakra smart-irrigation engine
(`backend/services/smart_irrigation_service.py`).

Modelling conventions:
* Python float arithmetic is modelled exactly over `ℚ`.
* `round(x, n)` is modelled by `roundDec n` (round half to even on the
  `10 ^ n` grid, Python's rounding rule).
* The transcendental primitives `math.exp`, `math.sin` and the constant
  `math.pi` are abstracted by a `MathPrims` record of arbitrary rational
  functions: every theorem below is quantified over all interpretations,
  so it holds in particular for the real exponential and sine.
* Wall-clock time (`datetime.now()`) is passed explicitly: `now : ℤ` is
  the current time in hours since an arbitrary epoch, `now_day : ℤ` the
  current day.  Python timestamps appear as `ℤ` hour counts.
* Dictionary lookups `d.get(key, default)` on weather-history records are
  modelled by `Option` fields together with `getD` accessors.
* The ambient NumPy random state is modelled by a stream `rng : ℕ → ℚ`
  whose `k`-th entry is the value returned by the `k`-th draw
  (`np.random.normal` / `np.random.exponential`) performed by
  `_generate_meteorological_forecast`.
-/

/-- Round half to even: the integer nearest to `q`, ties to the even
integer.  Models Python's `round` applied to an exact value. -/
def roundHalfEven (q : ℚ) : ℤ :=
  if q - (⌊q⌋ : ℚ) < 1/2 then ⌊q⌋
  else if 1/2 < q - (⌊q⌋ : ℚ) then ⌊q⌋ + 1
  else if ⌊q⌋ % 2 = 0 then ⌊q⌋ else ⌊q⌋ + 1

/-- Python `round(q, n)`: round to `n` decimal places, half to even. -/
def roundDec (n : ℕ) (q : ℚ) : ℚ :=
  (roundHalfEven (q * 10 ^ n) : ℚ) / 10 ^ n

/-- Abstract interpretations of `math.exp`, `math.sin` and `math.pi`.
All claims are proved for every interpretation, hence for the real one. -/
structure MathPrims where
  exp : ℚ → ℚ
  sin : ℚ → ℚ
  pi : ℚ

/-- FAO-56 crop parameter record, one entry of `self.crop_parameters`. -/
structure CropParams where
  p : ℚ
  field_capacity : ℚ
  wilting_point : ℚ
  rooting_depth : ℚ
  kc_initial : ℚ
  kc_development : ℚ
  kc_mid_season : ℚ
  kc_late_season : ℚ
  gs_initial : ℕ
  gs_development : ℕ
  gs_mid_season : ℕ
  gs_late_season : ℕ
deriving DecidableEq

/-- Soil parameter record, one entry of `self.soil_types`. -/
structure SoilParams where
  field_capacity : ℚ
  wilting_point : ℚ
  infiltration_rate : ℚ
  hydraulic_conductivity : ℚ
  bulk_density : ℚ
  porosity : ℚ
deriving DecidableEq

/-- Irrigation-system record, one entry of `self.irrigation_systems`. -/
structure IrrigationSystemParams where
  efficiency : ℚ
  cost_per_mm : ℚ
  application_rate : ℚ
  uniformity : ℚ
deriving DecidableEq

def asparagus_params : CropParams :=
  { p := 0.65, field_capacity := 0.35, wilting_point := 0.15, rooting_depth := 1.2
    kc_initial := 0.5, kc_development := 0.8, kc_mid_season := 1.15, kc_late_season := 1.0
    gs_initial := 30, gs_development := 40, gs_mid_season := 50, gs_late_season := 30 }

def tomato_params : CropParams :=
  { p := 0.40, field_capacity := 0.35, wilting_point := 0.15, rooting_depth := 1.0
    kc_initial := 0.6, kc_development := 1.15, kc_mid_season := 1.15, kc_late_season := 0.8
    gs_initial := 25, gs_development := 35, gs_mid_season := 40, gs_late_season := 30 }

def wheat_params : CropParams :=
  { p := 0.55, field_capacity := 0.35, wilting_point := 0.15, rooting_depth := 1.5
    kc_initial := 0.4, kc_development := 0.7, kc_mid_season := 1.15, kc_late_season := 0.4
    gs_initial := 15, gs_development := 25, gs_mid_season := 50, gs_late_season := 30 }

def sandy_params : SoilParams :=
  { field_capacity := 0.25, wilting_point := 0.10, infiltration_rate := 25
    hydraulic_conductivity := 5.0, bulk_density := 1.6, porosity := 0.40 }

def loamy_params : SoilParams :=
  { field_capacity := 0.35, wilting_point := 0.15, infiltration_rate := 15
    hydraulic_conductivity := 2.5, bulk_density := 1.4, porosity := 0.45 }

def clay_params : SoilParams :=
  { field_capacity := 0.45, wilting_point := 0.20, infiltration_rate := 5
    hydraulic_conductivity := 0.5, bulk_density := 1.3, porosity := 0.50 }

/-- `self.crop_parameters.get(crop_type, self.crop_parameters['asparagus'])`:
dictionary lookup with the asparagus fallback for unknown keys. -/
def crop_parameters (crop_type : String) : CropParams :=
  match crop_type with
  | "asparagus" => asparagus_params
  | "tomato" => tomato_params
  | "wheat" => wheat_params
  | _ => asparagus_params

/-- `self.soil_types.get(soil_type, self.soil_types['loamy'])`:
dictionary lookup with the loamy fallback for unknown keys. -/
def soil_types (soil_type : String) : SoilParams :=
  match soil_type with
  | "sandy" => sandy_params
  | "loamy" => loamy_params
  | "clay" => clay_params
  | _ => loamy_params

def drip_params : IrrigationSystemParams :=
  { efficiency := 0.90, cost_per_mm := 0.15, application_rate := 5, uniformity := 0.95 }

def sprinkler_params : IrrigationSystemParams :=
  { efficiency := 0.75, cost_per_mm := 0.10, application_rate := 15, uniformity := 0.85 }

def flood_params : IrrigationSystemParams :=
  { efficiency := 0.60, cost_per_mm := 0.05, application_rate := 25, uniformity := 0.70 }

def micro_sprinkler_params : IrrigationSystemParams :=
  { efficiency := 0.85, cost_per_mm := 0.12, application_rate := 8, uniformity := 0.90 }

/-- `self.irrigation_systems.get(irrigation_system, self.irrigation_systems['drip'])`. -/
def irrigation_systems (irrigation_system : String) : IrrigationSystemParams :=
  match irrigation_system with
  | "drip" => drip_params
  | "sprinkler" => sprinkler_params
  | "flood" => flood_params
  | "micro_sprinkler" => micro_sprinkler_params
  | _ => drip_params

/-- A forecast record (`WeatherData` model object); `date` is the day count
since the epoch (source formats it as a date string). -/
structure WeatherData where
  date : ℤ
  temperature : ℚ
  humidity : ℚ
  rainfall : ℚ
  wind_speed : ℚ
  solar_radiation : ℚ
deriving DecidableEq

/-- One dictionary of the historical daily weather list.  Each field is
optional because the source reads it as `day.get(key, default)`. -/
structure HistDay where
  temperature : Option ℚ
  humidity : Option ℚ
  rainfall : Option ℚ
  wind_speed : Option ℚ
  solar_radiation : Option ℚ
deriving DecidableEq

def HistDay.tempD (d : HistDay) : ℚ := d.temperature.getD 20
def HistDay.humidityD (d : HistDay) : ℚ := d.humidity.getD 50
def HistDay.rainfallD (d : HistDay) : ℚ := d.rainfall.getD 0
def HistDay.windD (d : HistDay) : ℚ := d.wind_speed.getD 2
def HistDay.solarD (d : HistDay) : ℚ := d.solar_radiation.getD 20

/-- `np.mean` of a rational list.  NumPy yields NaN on an empty list; the
model yields `0/0 = 0`, and no embedded call site receives an empty list
on the paths the claims quantify over. -/
def list_mean (l : List ℚ) : ℚ := l.sum / (l.length : ℚ)

/-- One record of the `lai_data` time series (only the `lai` key is read
by this service). -/
structure LaiRecord where
  lai : ℚ
deriving DecidableEq

/-- `satellite_data` dictionary; each key may be absent
(`satellite_data.get('ndvi', [0.6])`). -/
structure SatelliteData where
  ndvi : Option (List ℚ)
  evi : Option (List ℚ)
deriving DecidableEq

/-- A `SoilMoistureData` model object; `datetime` is the timestamp in
hours since the epoch (source stores an ISO string built from
`datetime.now() + timedelta(hours=hour)`). -/
structure SoilMoistureData where
  datetime : ℤ
  soil_moisture : ℚ
  field_capacity : ℚ
  wilting_point : ℚ
  stress_threshold : ℚ
  deficit : ℚ
  depth_cm : ℚ
deriving DecidableEq

/-- `_calculate_reference_et_penman_monteith` (simplified daily
Penman-Monteith ET0, clamped to be non-negative). -/
def calculate_reference_et_penman_monteith (prims : MathPrims)
    (temperature humidity solar_radiation : ℚ) : ℚ :=
  let delta := 4098 * (0.6108 * prims.exp (17.27 * temperature / (temperature + 237.3))) /
    ((temperature + 237.3) ^ 2)
  let gamma : ℚ := 0.665
  let et0 := (0.408 * delta * solar_radiation +
      gamma * 900 / (temperature + 273) * 2 * (0.01 * (100 - humidity))) /
    (delta + gamma * (1 + 0.34 * 2))
  max 0 et0

/-- `_calculate_hourly_et0` (daily ET0 divided by 24; `wind` is accepted
but unused, as in the source). -/
def calculate_hourly_et0 (prims : MathPrims) (temp humidity wind solar : ℚ) : ℚ :=
  let daily_et0 := calculate_reference_et_penman_monteith prims temp humidity solar
  daily_et0 / 24

/-- `_get_crop_coefficient`: crop coefficient bucketed by LAI. -/
def get_crop_coefficient (crop_type : String) (lai : ℚ) : ℚ :=
  let crop_params := crop_parameters crop_type
  if lai < 1.0 then crop_params.kc_initial
  else if lai < 2.5 then crop_params.kc_development
  else if lai < 4.0 then crop_params.kc_mid_season
  else crop_params.kc_late_season

/-- `_calculate_deep_percolation`. -/
def calculate_deep_percolation (moisture field_capacity hydraulic_conductivity : ℚ) : ℚ :=
  if moisture ≤ field_capacity then 0
  else min ((moisture - field_capacity) * 1000) (hydraulic_conductivity / 24)

/-- Placeholder forecast record; only reachable through
`fetch_forecast_day` on an empty forecast list, where the Python source
raises `IndexError` instead. -/
def dummy_weather : WeatherData :=
  { date := 0, temperature := 0, humidity := 0, rainfall := 0
    wind_speed := 0, solar_radiation := 0 }

/-- The forecast-record fetch of the simulator loop:
`weather_forecast[day_index] if day_index < len(weather_forecast) else
weather_forecast[-1]`. -/
def fetch_forecast_day (weather_forecast : List WeatherData) (day_index : ℕ) : WeatherData :=
  if day_index < weather_forecast.length then weather_forecast.getD day_index dummy_weather
  else weather_forecast.getLastD dummy_weather

/-- The loop-invariant data of `_run_hydrological_model_fest_ewb`:
everything fixed across the 72 hourly iterations. -/
structure HydroCtx where
  prims : MathPrims
  now : ℤ
  weather_forecast : List WeatherData
  crop_type : String
  lai : ℚ
  field_capacity : ℚ
  wilting_point : ℚ
  stress_threshold : ℚ
  root_depth : ℚ
  infiltration_rate : ℚ
  hydraulic_conductivity : ℚ

/-- Hourly infiltration: `min(precip_h, soil.infiltration_rate)` with
`precip_h = rainfall_day / 24`. -/
def hydro_infiltration (c : HydroCtx) (hour : ℕ) : ℚ :=
  let weather := fetch_forecast_day c.weather_forecast (hour / 24)
  let hourly_precipitation := weather.rainfall / 24
  min hourly_precipitation c.infiltration_rate

/-- Hourly crop evapotranspiration `crop_ET_h = ET0_h · Kc` with the
diurnal temperature and solar disaggregation of the source loop. -/
def hydro_crop_et (c : HydroCtx) (hour : ℕ) : ℚ :=
  let weather := fetch_forecast_day c.weather_forecast (hour / 24)
  let hourly_temp := weather.temperature +
    5 * c.prims.sin (2 * c.prims.pi * ((hour % 24 : ℕ) : ℚ) / 24)
  let hourly_humidity := weather.humidity
  let hourly_wind := weather.wind_speed
  let hourly_solar := weather.solar_radiation *
    max 0 (c.prims.sin (c.prims.pi * ((hour % 24 : ℕ) : ℚ) / 12))
  let et0_hourly := calculate_hourly_et0 c.prims hourly_temp hourly_humidity hourly_wind hourly_solar
  let kc := get_crop_coefficient c.crop_type c.lai
  et0_hourly * kc

/-- One hourly update of the water-balance state machine:
`clamp(current + (infiltration − crop_ET − deep_percolation)/(root_depth·1000), WP, FC)`.
(The `runoff` the loop also computes is recorded but never used.) -/
def hydro_new_moisture (c : HydroCtx) (hour : ℕ) (current_moisture : ℚ) : ℚ :=
  let infiltration := hydro_infiltration c hour
  let crop_et := hydro_crop_et c hour
  let deep_percolation :=
    calculate_deep_percolation current_moisture c.field_capacity c.hydraulic_conductivity
  let moisture_change := (infiltration - crop_et - deep_percolation) / (c.root_depth * 1000)
  max c.wilting_point (min c.field_capacity (current_moisture + moisture_change))

/-- The `SoilMoistureData` record emitted at one hour of the loop. -/
def hydro_record (c : HydroCtx) (hour : ℕ) (new_moisture : ℚ) : SoilMoistureData :=
  { datetime := c.now + (hour : ℤ)
    soil_moisture := roundDec 4 new_moisture
    field_capacity := c.field_capacity
    wilting_point := c.wilting_point
    stress_threshold := c.stress_threshold
    deficit := roundDec 4 (max 0 (c.field_capacity - new_moisture))
    depth_cm := c.root_depth * 100 }

/-- The simulator loop: `fuel` remaining iterations starting at `hour`. -/
def run_hydro_aux (c : HydroCtx) : ℕ → ℕ → ℚ → List SoilMoistureData
  | _, 0, _ => []
  | hour, fuel + 1, current_moisture =>
    let new_moisture := hydro_new_moisture c hour current_moisture
    hydro_record c hour new_moisture :: run_hydro_aux c (hour + 1) fuel new_moisture

/-- The simulator loop with the `deep_percolation` term removed
(comparison definition for the refinement claim C9). -/
def hydro_new_moisture_noperc (c : HydroCtx) (hour : ℕ) (current_moisture : ℚ) : ℚ :=
  let infiltration := hydro_infiltration c hour
  let crop_et := hydro_crop_et c hour
  let moisture_change := (infiltration - crop_et) / (c.root_depth * 1000)
  max c.wilting_point (min c.field_capacity (current_moisture + moisture_change))

def run_hydro_noperc_aux (c : HydroCtx) : ℕ → ℕ → ℚ → List SoilMoistureData
  | _, 0, _ => []
  | hour, fuel + 1, current_moisture =>
    let new_moisture := hydro_new_moisture_noperc c hour current_moisture
    hydro_record c hour new_moisture :: run_hydro_noperc_aux c (hour + 1) fuel new_moisture

/-- The sequence of `deep_percolation` values computed by the simulator
loop, in hour order (mirrors `run_hydro_aux`, exposing the percolation
term instead of the emitted record). -/
def run_hydro_perc_aux (c : HydroCtx) : ℕ → ℕ → ℚ → List ℚ
  | _, 0, _ => []
  | hour, fuel + 1, current_moisture =>
    calculate_deep_percolation current_moisture c.field_capacity c.hydraulic_conductivity ::
      run_hydro_perc_aux c (hour + 1) fuel (hydro_new_moisture c hour current_moisture)

/-- Initial hydrological state, the dictionary returned by
`_get_initial_conditions_fest_ewb` / `_get_default_initial_conditions`.
The `last_irrigation` key (always `None`) is omitted. -/
structure InitialConditions where
  soil_water_content : ℚ
  field_capacity : ℚ
  wilting_point : ℚ
  lai : ℚ
  ndvi : ℚ
  albedo : ℚ
  root_zone_depth : ℚ
  canopy_cover : ℚ
  days_since_rain : ℕ
  growing_degree_days : ℚ
  water_balance : ℚ
  soil_temperature : ℚ
deriving DecidableEq

/-- `self.forecast_horizon`. -/
def forecast_horizon : ℕ := 72

/-- The `HydroCtx` assembled at the top of
`_run_hydrological_model_fest_ewb` (and reused by the comparison
definitions below): crop/soil parameter resolution and the stress
threshold `initial_conditions.get('stress_threshold', FC - p*(FC - WP))`.
Neither producer of the initial-conditions dictionary stores a
`stress_threshold` key, so the `.get` default is always taken. -/
def mk_hydro_ctx (prims : MathPrims) (now : ℤ) (weather_forecast : List WeatherData)
    (veg_lai : ℚ) (crop_type soil_type : String) : HydroCtx :=
  let crop_params := crop_parameters crop_type
  let soil_params := soil_types soil_type
  { prims := prims, now := now, weather_forecast := weather_forecast
    crop_type := crop_type, lai := veg_lai
    field_capacity := soil_params.field_capacity
    wilting_point := soil_params.wilting_point
    stress_threshold := soil_params.field_capacity -
      crop_params.p * (soil_params.field_capacity - soil_params.wilting_point)
    root_depth := crop_params.rooting_depth
    infiltration_rate := soil_params.infiltration_rate
    hydraulic_conductivity := soil_params.hydraulic_conductivity }

/-- `_run_hydrological_model_fest_ewb`.  `veg_lai` is
`vegetation_params['lai']`.  The loop bases each timestamp on
`datetime.now()`, modelled by `now`. -/
def run_hydrological_model_fest_ewb (prims : MathPrims) (now : ℤ)
    (initial_conditions : InitialConditions) (weather_forecast : List WeatherData)
    (veg_lai : ℚ) (crop_type soil_type : String) : List SoilMoistureData :=
  run_hydro_aux (mk_hydro_ctx prims now weather_forecast veg_lai crop_type soil_type)
    0 forecast_horizon initial_conditions.soil_water_content

/-- The simulator with the percolation term removed (C9 comparison). -/
def run_hydrological_model_noperc (prims : MathPrims) (now : ℤ)
    (initial_conditions : InitialConditions) (weather_forecast : List WeatherData)
    (veg_lai : ℚ) (crop_type soil_type : String) : List SoilMoistureData :=
  run_hydro_noperc_aux (mk_hydro_ctx prims now weather_forecast veg_lai crop_type soil_type)
    0 forecast_horizon initial_conditions.soil_water_content

/-- The per-hour `deep_percolation` values of a full simulator run. -/
def run_hydrological_model_percolation_trace (prims : MathPrims) (now : ℤ)
    (initial_conditions : InitialConditions) (weather_forecast : List WeatherData)
    (veg_lai : ℚ) (crop_type soil_type : String) : List ℚ :=
  run_hydro_perc_aux (mk_hydro_ctx prims now weather_forecast veg_lai crop_type soil_type)
    0 forecast_horizon initial_conditions.soil_water_content

/-- `_calculate_vegetation_adjustment` (the `crop_type` argument is
accepted but unused, as in the source). -/
def calculate_vegetation_adjustment (lai : ℚ) (crop_type : String) : ℚ :=
  if lai < 1.0 then 1.1
  else if lai > 4.0 then 0.95
  else 1.0

/-- The dictionary returned by `_calculate_stress_threshold_fao56`, with
the `trigger_points` sub-dictionary flattened into four fields. -/
structure StressThresholdData where
  theta_critical : ℚ
  theta_critical_base : ℚ
  field_capacity : ℚ
  wilting_point : ℚ
  TAW : ℚ
  RAW : ℚ
  surplus_threshold : ℚ
  depletion_fraction_p : ℚ
  mad_percentage : ℚ
  vegetation_adjustment : ℚ
  trigger_low : ℚ
  trigger_medium : ℚ
  trigger_high : ℚ
  trigger_critical : ℚ
deriving DecidableEq

/-- `_calculate_stress_threshold_fao56`.  `veg_lai` is
`vegetation_params.get('lai', 2.5)` (the key is always present in the
dictionary built by `_extract_vegetation_parameters`). -/
def calculate_stress_threshold_fao56 (crop_type soil_type : String)
    (veg_lai : ℚ) : StressThresholdData :=
  let crop_params := crop_parameters crop_type
  let soil_params := soil_types soil_type
  let field_capacity := soil_params.field_capacity
  let wilting_point := soil_params.wilting_point
  let p := crop_params.p
  let TAW := field_capacity - wilting_point
  let RAW := p * TAW
  let theta_crit := field_capacity - RAW
  let vegetation_adjustment := calculate_vegetation_adjustment veg_lai crop_type
  let theta_crit_adjusted := theta_crit * vegetation_adjustment
  let mad := RAW / TAW * 100
  { theta_critical := roundDec 4 theta_crit_adjusted
    theta_critical_base := roundDec 4 theta_crit
    field_capacity := field_capacity
    wilting_point := wilting_point
    TAW := roundDec 4 TAW
    RAW := roundDec 4 RAW
    surplus_threshold := field_capacity
    depletion_fraction_p := p
    mad_percentage := roundDec 1 mad
    vegetation_adjustment := roundDec 3 vegetation_adjustment
    trigger_low := roundDec 4 (theta_crit_adjusted + 0.02)
    trigger_medium := roundDec 4 theta_crit_adjusted
    trigger_high := roundDec 4 (theta_crit_adjusted - 0.01)
    trigger_critical := roundDec 4 (wilting_point + 0.02) }

/-- `_analyze_seasonal_patterns`: the pair
(`temperature_trend`, `humidity_trend`).  The trend is the endpoint
difference over the last 30 days divided by 30 (zero when fewer than 30
days are available). -/
def analyze_seasonal_patterns (weather_data : List HistDay) : ℚ × ℚ :=
  if weather_data.length < 30 then (0, 0)
  else
    let last30 := weather_data.drop (weather_data.length - 30)
    let temperatures := last30.map HistDay.tempD
    let temp_trend := (temperatures.getLastD 20 - temperatures.headD 20) / 30
    let humidities := last30.map HistDay.humidityD
    let humidity_trend := (humidities.getLastD 50 - humidities.headD 50) / 30
    (temp_trend, humidity_trend)

/-- The constant dictionary returned by `_analyze_daily_patterns`
(computed by the forecast generator, never consulted afterwards). -/
structure DailyPatterns where
  avg_daily_temp_range : ℚ
  peak_humidity_time : ℕ
  min_humidity_time : ℕ
deriving DecidableEq

def analyze_daily_patterns (recent_data : List HistDay) : DailyPatterns :=
  { avg_daily_temp_range := 8, peak_humidity_time := 6, min_humidity_time := 14 }

/-- One iteration of the forecast loop: forecast entry for loop index
`day ∈ {0, 1, 2}` (forecast day `day + 1`).  The five `np.random` draws of
this iteration are `rng (5*day) .. rng (5*day + 4)`, in source order:
temperature, humidity, rainfall, wind, solar. -/
def forecast_day_entry (now_day : ℤ) (rng : ℕ → ℚ) (recent_data : List HistDay)
    (seasonal_trends : ℚ × ℚ) (day : ℕ) : WeatherData :=
  let base_temp := list_mean (recent_data.map HistDay.tempD)
  let base_humidity := list_mean (recent_data.map HistDay.humidityD)
  let base_rainfall := list_mean (recent_data.map HistDay.rainfallD)
  let base_wind := list_mean (recent_data.map HistDay.windD)
  let base_solar := list_mean (recent_data.map HistDay.solarD)
  let temp_adjustment := seasonal_trends.1 * (day : ℚ)
  let humidity_adjustment := seasonal_trends.2 * (day : ℚ)
  let temp_variation := rng (5 * day)
  let humidity_variation := rng (5 * day + 1)
  let rainfall_variation := max 0 (rng (5 * day + 2))
  let wind_variation := max 0.5 (rng (5 * day + 3))
  let solar_variation := max 5 (rng (5 * day + 4))
  { date := now_day + (day : ℤ) + 1
    temperature := roundDec 1 (base_temp + temp_adjustment + temp_variation)
    humidity := roundDec 1 (max 20 (min 100 (base_humidity + humidity_adjustment + humidity_variation)))
    rainfall := roundDec 1 rainfall_variation
    wind_speed := roundDec 1 wind_variation
    solar_radiation := roundDec 1 solar_variation }

/-- `_get_default_weather_forecast`. -/
def get_default_weather_forecast (now_day : ℤ) : List WeatherData :=
  (List.range 3).map fun day =>
    { date := now_day + (day : ℤ) + 1
      temperature := 22 + (day : ℚ)
      humidity := 60 - (day : ℚ) * 5
      rainfall := if day = 1 then 2 else 0
      wind_speed := 2
      solar_radiation := 20 }

/-- `_generate_meteorological_forecast`.  `rng` is the stream of values
produced by the successive draws from the process-global NumPy random
state (there is no generator/seed parameter in the source signature). -/
def generate_meteorological_forecast (now_day : ℤ) (rng : ℕ → ℚ)
    (weather_data : List HistDay) : List WeatherData :=
  if weather_data = [] then get_default_weather_forecast now_day
  else
    let recent_data := weather_data.drop (weather_data.length - 14)
    let seasonal_trends := analyze_seasonal_patterns weather_data
    let daily_patterns := analyze_daily_patterns recent_data
    (List.range 3).map (forecast_day_entry now_day rng recent_data seasonal_trends)

/-- `_calculate_days_since_rain`: count back from the most recent day
until a day with more than 5 mm rainfall, capped at 30. -/
def count_days_until_rain : List HistDay → ℕ
  | [] => 0
  | day :: rest => if day.rainfallD > 5 then 0 else 1 + count_days_until_rain rest

def calculate_days_since_rain (weather_data : List HistDay) : ℕ :=
  min (count_days_until_rain weather_data.reverse) 30

/-- `_calculate_growing_degree_days` over a weather window (base 10 °C). -/
def calculate_growing_degree_days (weather_data : List HistDay) : ℚ :=
  (weather_data.map fun day => if day.tempD > 10 then day.tempD - 10 else 0).sum

/-- `_get_default_initial_conditions`. -/
def get_default_initial_conditions (crop_type soil_type : String) : InitialConditions :=
  let crop_params := crop_parameters crop_type
  let soil_params := soil_types soil_type
  { soil_water_content := soil_params.field_capacity * 0.7
    field_capacity := soil_params.field_capacity
    wilting_point := soil_params.wilting_point
    lai := 2.5
    ndvi := 0.6
    albedo := 0.2
    root_zone_depth := crop_params.rooting_depth
    canopy_cover := 0.6
    days_since_rain := 3
    growing_degree_days := 150
    water_balance := 0
    soil_temperature := 18 }

/-- `_get_initial_conditions_fest_ewb`. -/
def get_initial_conditions_fest_ewb (prims : MathPrims) (lai_data : List LaiRecord)
    (weather_data : List HistDay) (satellite_data : SatelliteData)
    (crop_type soil_type : String) : InitialConditions :=
  if weather_data = [] ∨ lai_data = [] then get_default_initial_conditions crop_type soil_type
  else
    let recent_weather := weather_data.drop (weather_data.length - 14)
    let total_rainfall := (recent_weather.map HistDay.rainfallD).sum
    let avg_temperature := list_mean (recent_weather.map HistDay.tempD)
    let avg_humidity := list_mean (recent_weather.map HistDay.humidityD)
    let avg_solar_radiation := list_mean (recent_weather.map HistDay.solarD)
    let soil_params := soil_types soil_type
    let crop_params := crop_parameters crop_type
    let field_capacity := soil_params.field_capacity
    let wilting_point := soil_params.wilting_point
    let et0_daily :=
      calculate_reference_et_penman_monteith prims avg_temperature avg_humidity avg_solar_radiation
    let total_et := et0_daily * (recent_weather.length : ℚ) * crop_params.kc_mid_season
    let net_water := total_rainfall - total_et
    let root_depth_mm := crop_params.rooting_depth * 1000
    let moisture_change := net_water / root_depth_mm
    let base_moisture := field_capacity * 0.8
    let current_moisture := max wilting_point (min field_capacity (base_moisture + moisture_change))
    let current_lai := (lai_data.getLastD ⟨2.5⟩).lai
    let current_ndvi := list_mean (satellite_data.ndvi.getD [0.6])
    let albedo := max 0.1 (min 0.4 (0.23 - 0.15 * current_ndvi + 0.05 * current_ndvi ^ 2))
    { soil_water_content := roundDec 4 current_moisture
      field_capacity := field_capacity
      wilting_point := wilting_point
      lai := roundDec 2 current_lai
      ndvi := roundDec 3 current_ndvi
      albedo := roundDec 3 albedo
      root_zone_depth := crop_params.rooting_depth
      canopy_cover := min 1.0 (current_lai / 3.0)
      days_since_rain := calculate_days_since_rain weather_data
      growing_degree_days := calculate_growing_degree_days recent_weather
      water_balance := roundDec 2 net_water
      soil_temperature := avg_temperature - 2 }

/-- A stress-event dictionary appended by `_analyze_stress_conditions_pregi`. -/
structure StressEvent where
  hour : ℕ
  datetime : ℤ
  soil_moisture : ℚ
  deficit : ℚ
  stress_level : String
  urgency_score : ℚ
deriving DecidableEq

/-- `_calculate_urgency_score`. -/
def calculate_urgency_score (soil_moisture : ℚ) (th : StressThresholdData) : ℚ :=
  if soil_moisture < th.trigger_critical then 1.0
  else if soil_moisture < th.trigger_high then 0.8
  else if soil_moisture < th.trigger_medium then 0.6
  else if soil_moisture < th.trigger_low then 0.4
  else 0.0

/-- The stress level and stress-hour weight assigned to one forecast
point by the classification cascade of `_analyze_stress_conditions_pregi`
(weight 1 for critical/high/medium, 0.5 for low, 0 for none). -/
def stress_level_and_weight (soil_moisture : ℚ) (th : StressThresholdData) : String × ℚ :=
  if soil_moisture < th.trigger_critical then ("critical", 1)
  else if soil_moisture < th.trigger_high then ("high", 1)
  else if soil_moisture < th.trigger_medium then ("medium", 1)
  else if soil_moisture < th.trigger_low then ("low", 1/2)
  else ("none", 0)

/-- Accumulator of the stress-analysis loop.  `min_moisture` starts at
`float('inf')` in the source, modelled by `none`. -/
structure StressScanState where
  events : List StressEvent
  hours : ℚ
  criticals : List ℕ
  min_moisture : Option ℚ
  max_deficit : ℚ
deriving DecidableEq

/-- The stress-analysis loop over the forecast points, starting at index
`i`.  Events and critical indices are produced in index order; the
min/max accumulators are folded over the same elements (fold direction is
immaterial for `min`/`max`/`+`). -/
def analyze_stress_go (th : StressThresholdData) : ℕ → List SoilMoistureData → StressScanState
  | _, [] => { events := [], hours := 0, criticals := [], min_moisture := none, max_deficit := 0 }
  | i, f :: rest =>
    let s := analyze_stress_go th (i + 1) rest
    let soil_moisture := f.soil_moisture
    let lw := stress_level_and_weight soil_moisture th
    let stress_level := lw.1
    let events :=
      if stress_level = "none" then s.events
      else
        { hour := i, datetime := f.datetime, soil_moisture := soil_moisture
          deficit := f.deficit, stress_level := stress_level
          urgency_score := calculate_urgency_score soil_moisture th } :: s.events
    let criticals :=
      if stress_level = "high" ∨ stress_level = "critical" then i :: s.criticals else s.criticals
    { events := events
      hours := lw.2 + s.hours
      criticals := criticals
      min_moisture := some (match s.min_moisture with
        | none => soil_moisture
        | some m => min m soil_moisture)
      max_deficit := max f.deficit s.max_deficit }

/-- `_determine_irrigation_urgency`. -/
def determine_irrigation_urgency (stress_events : List StressEvent)
    (critical_periods : List ℕ) : String :=
  if critical_periods.length > 12 then "critical"
  else if critical_periods.length > 0 then "high"
  else if stress_events.length > 24 then "medium"
  else if stress_events.length > 0 then "low"
  else "none"

/-- `_classify_overall_stress_severity`. -/
def classify_overall_stress_severity (stress_events : List StressEvent) : String :=
  if stress_events = [] then "none"
  else
    let critical_count := stress_events.countP fun event => event.stress_level == "critical"
    let high_count := stress_events.countP fun event => event.stress_level == "high"
    if critical_count > 6 then "critical"
    else if critical_count > 0 ∨ high_count > 12 then "high"
    else if high_count > 0 then "moderate"
    else "low"

/-- The dictionary returned by `_analyze_stress_conditions_pregi`. -/
structure StressAnalysis where
  stress_events : List StressEvent
  stress_hours : ℚ
  stress_percentage : ℚ
  min_forecasted_moisture : Option ℚ
  max_deficit : ℚ
  critical_periods : List ℕ
  irrigation_triggered : Bool
  irrigation_urgency : String
  stress_severity : String
deriving DecidableEq

/-- `_analyze_stress_conditions_pregi`. -/
def analyze_stress_conditions_pregi (soil_moisture_forecast : List SoilMoistureData)
    (th : StressThresholdData) : StressAnalysis :=
  let s := analyze_stress_go th 0 soil_moisture_forecast
  { stress_events := s.events
    stress_hours := s.hours
    stress_percentage := roundDec 1 (s.hours / (soil_moisture_forecast.length : ℚ) * 100)
    min_forecasted_moisture := s.min_moisture.map (roundDec 4)
    max_deficit := roundDec 4 s.max_deficit
    critical_periods := s.criticals
    irrigation_triggered := decide (s.events.length > 0)
    irrigation_urgency := determine_irrigation_urgency s.events s.criticals
    stress_severity := classify_overall_stress_severity s.events }

/-- An `IrrigationEvent` model object (`datetime` in epoch hours). -/
structure IrrigationEvent where
  datetime : ℤ
  water_amount : ℚ
  irrigation_type : String
  duration : ℚ
  efficiency : ℚ
  cost : ℚ
deriving DecidableEq

/-- An `IrrigationSchedule` model object (`schedule_date` in epoch days). -/
structure IrrigationSchedule where
  schedule_date : ℤ
  recommended_events : List IrrigationEvent
  total_water_needed : ℚ
  urgency_level : String
  next_irrigation_time : Option ℤ
  monitoring_frequency : String
deriving DecidableEq

/-- An `IrrigationRecommendation` model object. -/
structure IrrigationRecommendation where
  needs_irrigation : Bool
  confidence : ℚ
  reasoning : String
  water_amount : ℚ
  irrigation_method : String
  timing : String
  schedule : Option IrrigationSchedule
  cost_estimate : ℚ
  water_savings : ℚ
  yield_impact : String
  environmental_impact : String
deriving DecidableEq

/-- The dictionary returned by `_calculate_irrigation_requirements`. -/
structure IrrigationRequirements where
  net_water_needed : ℚ
  gross_water_needed : ℚ
  total_water : ℚ
  moisture_deficit : ℚ
  application_efficiency : ℚ
deriving DecidableEq

/-- `_calculate_irrigation_requirements`. -/
def calculate_irrigation_requirements (stress_analysis : StressAnalysis)
    (initial_conditions : InitialConditions) (crop_type soil_type : String) :
    IrrigationRequirements :=
  let crop_params := crop_parameters crop_type
  let soil_params := soil_types soil_type
  let field_capacity := soil_params.field_capacity
  let current_moisture := initial_conditions.soil_water_content
  let root_depth := crop_params.rooting_depth
  let moisture_deficit := field_capacity - current_moisture
  let water_needed_mm := moisture_deficit * root_depth * 1000
  let application_efficiency : ℚ := 0.85
  let base_gross := water_needed_mm / application_efficiency
  let stress_severity := stress_analysis.stress_severity
  let water_needed_gross :=
    if stress_severity = "critical" then base_gross * 1.2
    else if stress_severity = "high" then base_gross * 1.1
    else base_gross
  { net_water_needed := roundDec 1 water_needed_mm
    gross_water_needed := roundDec 1 water_needed_gross
    total_water := roundDec 1 water_needed_gross
    moisture_deficit := roundDec 4 moisture_deficit
    application_efficiency := application_efficiency }

/-- `datetime.now().replace(hour=6, minute=0, second=0)` at hour
granularity: the 06:00 of the current day. -/
def today_at_six (now : ℤ) : ℤ := (Int.fdiv now 24) * 24 + 6

/-- `_plan_irrigation_events` (its `weather_forecast` argument is
accepted but unused, as in the source). -/
def plan_irrigation_events (now : ℤ) (stress_analysis : StressAnalysis)
    (irrigation_requirements : IrrigationRequirements) (irrigation_system : String)
    (weather_forecast : List WeatherData) : List IrrigationEvent :=
  let system_params := irrigation_systems irrigation_system
  let total_water := irrigation_requirements.total_water
  let urgency := stress_analysis.irrigation_urgency
  if urgency = "critical" then
    [{ datetime := now + 1, water_amount := total_water, irrigation_type := irrigation_system
       duration := total_water / system_params.application_rate
       efficiency := system_params.efficiency
       cost := total_water * system_params.cost_per_mm }]
  else if urgency = "high" then
    let first_amount := total_water * 0.6
    let second_amount := total_water * 0.4
    [{ datetime := now + 2, water_amount := first_amount, irrigation_type := irrigation_system
       duration := first_amount / system_params.application_rate
       efficiency := system_params.efficiency
       cost := first_amount * system_params.cost_per_mm },
     { datetime := now + 24, water_amount := second_amount, irrigation_type := irrigation_system
       duration := second_amount / system_params.application_rate
       efficiency := system_params.efficiency
       cost := second_amount * system_params.cost_per_mm }]
  else if urgency = "medium" then
    let optimal_time := today_at_six now + 24
    let optimal_time := if optimal_time < now then optimal_time + 24 else optimal_time
    [{ datetime := optimal_time, water_amount := total_water, irrigation_type := irrigation_system
       duration := total_water / system_params.application_rate
       efficiency := system_params.efficiency
       cost := total_water * system_params.cost_per_mm }]
  else
    let optimal_time := today_at_six now + 48
    [{ datetime := optimal_time, water_amount := total_water, irrigation_type := irrigation_system
       duration := total_water / system_params.application_rate
       efficiency := system_params.efficiency
       cost := total_water * system_params.cost_per_mm }]

/-- The dictionary returned by `_calculate_irrigation_costs`. -/
structure CostAnalysis where
  total_cost : ℚ
  cost_per_mm : ℚ
  system_efficiency : ℚ
  water_cost_savings : ℚ
deriving DecidableEq

/-- `_calculate_irrigation_costs`. -/
def calculate_irrigation_costs (irrigation_events : List IrrigationEvent)
    (irrigation_system : String) : CostAnalysis :=
  let total_cost := (irrigation_events.map IrrigationEvent.cost).sum
  let total_water := (irrigation_events.map IrrigationEvent.water_amount).sum
  let system_params := irrigation_systems irrigation_system
  { total_cost := roundDec 2 total_cost
    cost_per_mm := roundDec 3 (if total_water > 0 then total_cost / total_water else 0)
    system_efficiency := system_params.efficiency
    water_cost_savings := roundDec 2 ((1 - system_params.efficiency) * total_cost) }

/-- The dictionary returned by `_calculate_water_efficiency_savings`. -/
structure EfficiencySavings where
  water_savings_percent : ℚ
  yield_impact : String
  environmental_impact : String
deriving DecidableEq

/-- `_calculate_water_efficiency_savings` (its `crop_type` argument is
accepted but unused, as in the source). -/
def calculate_water_efficiency_savings (irrigation_requirements : IrrigationRequirements)
    (irrigation_system crop_type : String) : EfficiencySavings :=
  let system_params := irrigation_systems irrigation_system
  let flood_efficiency := flood_params.efficiency
  let current_efficiency := system_params.efficiency
  let water_savings_percent := (current_efficiency - flood_efficiency) / flood_efficiency * 100
  { water_savings_percent := roundDec 1 (max 0 water_savings_percent)
    yield_impact := "Positive - optimized water application maintains crop health"
    environmental_impact :=
      if water_savings_percent > 20 then
        "Highly positive - significant water conservation and reduced runoff"
      else if water_savings_percent > 10 then "Positive - moderate water conservation"
      else "Neutral - standard water usage" }

/-- `_determine_optimal_timing`. -/
def determine_optimal_timing (stress_analysis : StressAnalysis)
    (weather_forecast : List WeatherData) : String :=
  let urgency := stress_analysis.irrigation_urgency
  if urgency = "critical" then "Immediate irrigation required"
  else if urgency = "high" then "Irrigate within 2-4 hours"
  else if urgency = "medium" then "Irrigate within 12-24 hours (preferably early morning)"
  else "Irrigate within 24-48 hours during optimal conditions"

/-- The `reasoning` string of the stress branch of
`_generate_irrigation_schedule`.  Python's `%.1f` / `%.3f` numeric
formatting is abstracted by `toString` of the rational value. -/
def irrigation_reasoning (stress_analysis : StressAnalysis) (irrigation_system : String) : String :=
  "Water stress detected for " ++ toString stress_analysis.stress_hours ++
    " hours in 72h forecast. " ++
    "Maximum soil moisture deficit: " ++ toString stress_analysis.max_deficit ++ ". " ++
    "Irrigation urgency: " ++ stress_analysis.irrigation_urgency ++ ". " ++
    "Recommended method: " ++ irrigation_system ++ " irrigation."

/-- `_generate_irrigation_schedule`. -/
def generate_irrigation_schedule (now : ℤ) (stress_analysis : StressAnalysis)
    (initial_conditions : InitialConditions) (weather_forecast : List WeatherData)
    (crop_type soil_type irrigation_system : String) : IrrigationRecommendation :=
  let needs_irrigation := stress_analysis.irrigation_triggered
  let confidence_base : ℚ := 75
  if needs_irrigation = false then
    { needs_irrigation := false
      confidence := confidence_base + 15
      reasoning :=
        "No water stress detected in 72-hour forecast. Current soil moisture levels are adequate."
      water_amount := 0
      irrigation_method := "None required"
      timing := "Monitor conditions"
      schedule := none
      cost_estimate := 0
      water_savings := 100
      yield_impact := "No impact expected"
      environmental_impact := "Positive - water conservation" }
  else
    let irrigation_requirements :=
      calculate_irrigation_requirements stress_analysis initial_conditions crop_type soil_type
    let irrigation_events :=
      plan_irrigation_events now stress_analysis irrigation_requirements irrigation_system
        weather_forecast
    let schedule : IrrigationSchedule :=
      { schedule_date := Int.fdiv now 24
        recommended_events := irrigation_events
        total_water_needed := irrigation_requirements.total_water
        urgency_level := stress_analysis.irrigation_urgency
        next_irrigation_time := irrigation_events.head?.map IrrigationEvent.datetime
        monitoring_frequency :=
          if stress_analysis.irrigation_urgency = "high" ∨
              stress_analysis.irrigation_urgency = "critical" then "hourly"
          else "daily" }
    let cost_analysis := calculate_irrigation_costs irrigation_events irrigation_system
    let efficiency_analysis :=
      calculate_water_efficiency_savings irrigation_requirements irrigation_system crop_type
    let confidence :=
      if stress_analysis.stress_severity = "critical" then confidence_base + 15
      else if stress_analysis.stress_severity = "high" then confidence_base + 10
      else if stress_analysis.stress_severity = "moderate" then confidence_base + 5
      else confidence_base
    { needs_irrigation := true
      confidence := min 95 confidence
      reasoning := irrigation_reasoning stress_analysis irrigation_system
      water_amount := irrigation_requirements.total_water
      irrigation_method := irrigation_system
      timing := determine_optimal_timing stress_analysis weather_forecast
      schedule := some schedule
      cost_estimate := cost_analysis.total_cost
      water_savings := efficiency_analysis.water_savings_percent
      yield_impact := efficiency_analysis.yield_impact
      environmental_impact := efficiency_analysis.environmental_impact }

/-- The JSON response of `analyze_smart_irrigation`, restricted to the
decision fields the claims inspect plus the `error` key (present only in
the fallback dictionary, hence an `Option`).  Fields that merely echo
inputs or chart payloads are omitted. -/
structure AnalysisResponse where
  timestamp : ℤ
  needs_irrigation : Bool
  confidence : ℚ
  reasoning : String
  water_amount : Option ℚ
  irrigation_method : Option String
  timing : Option String
  cost_estimate : Option ℚ
  water_savings : Option ℚ
  yield_impact : String
  environmental_impact : String
  processing_time : ℚ
  model_accuracy : ℚ
  error : Option String
deriving DecidableEq

/-- `_get_fallback_irrigation_recommendation`. -/
def get_fallback_irrigation_recommendation (now : ℤ) : AnalysisResponse :=
  { timestamp := now
    needs_irrigation := false
    confidence := 50
    reasoning := "Unable to complete smart irrigation analysis. Manual inspection recommended."
    water_amount := none
    irrigation_method := none
    timing := none
    cost_estimate := none
    water_savings := none
    yield_impact := "Analysis incomplete"
    environmental_impact := "Unknown"
    processing_time := 0
    model_accuracy := 0
    error := some "Analysis failed - insufficient data or system error" }

/-- The `try`/`except` of `analyze_smart_irrigation` (lines 185-286):
the try body — pipeline steps 1 through 8 and response assembly — is
abstracted as a fallible computation `pipeline` which either produces a
response or raises an exception carrying a message.  The orchestrator
returns the response on success and the fixed fallback dictionary on any
exception; it has no other exit path. -/
def analyze_smart_irrigation (now : ℤ)
    (pipeline : Except String AnalysisResponse) : AnalysisResponse :=
  match pipeline with
  | .ok response => response
  | .error _ => get_fallback_irrigation_recommendation now

/-- The fields of an emitted `SoilMoistureData` record other than its
timestamp (used to state what is and is not wall-clock dependent). -/
def SoilMoistureData.values (x : SoilMoistureData) : ℚ × ℚ × ℚ × ℚ × ℚ × ℚ :=
  (x.soil_moisture, x.field_capacity, x.wilting_point, x.stress_threshold, x.deficit, x.depth_cm)

/-! ## Concrete inputs used by witness and counterexample theorems -/

/-- A concrete interpretation of the abstract math primitives, used to
instantiate witness theorems (`pi` is the float value of `math.pi`). -/
def witness_prims : MathPrims :=
  { exp := fun _ => 1, sin := fun _ => 0, pi := 3.141592653589793 }

/-- A concrete rain-free 3-day forecast. -/
def witness_forecast : List WeatherData :=
  [{ date := 1, temperature := 22, humidity := 60, rainfall := 0
     wind_speed := 2, solar_radiation := 20 },
   { date := 2, temperature := 23, humidity := 55, rainfall := 0
     wind_speed := 2, solar_radiation := 20 },
   { date := 3, temperature := 24, humidity := 50, rainfall := 0
     wind_speed := 2, solar_radiation := 20 }]

/-- Concrete initial conditions whose soil water content sits exactly at
the loamy wilting point. -/
def witness_ic : InitialConditions :=
  { soil_water_content := 0.15, field_capacity := 0.35, wilting_point := 0.15
    lai := 2.5, ndvi := 0.6, albedo := 0.2, root_zone_depth := 1.2
    canopy_cover := 0.6, days_since_rain := 3, growing_degree_days := 150
    water_balance := 0, soil_temperature := 18 }

/-- A concrete stress-free forecast point (moisture at field capacity). -/
def witness_wet_point : SoilMoistureData :=
  { datetime := 0, soil_moisture := 0.35, field_capacity := 0.35
    wilting_point := 0.15, stress_threshold := 0.22, deficit := 0, depth_cm := 120 }

/-- A quiet historical day (0 °C) used to build counterexample series. -/
def c5_day0 : HistDay :=
  { temperature := some 0, humidity := some 50, rainfall := some 0
    wind_speed := some 2, solar_radiation := some 20 }

/-- A hot historical day (30 °C). -/
def c5_day30 : HistDay :=
  { temperature := some 30, humidity := some 50, rainfall := some 0
    wind_speed := some 2, solar_radiation := some 20 }

/-- A 30-day temperature history: 29 days at 0 °C followed by one day at
30 °C.  Its ordinary-least-squares temperature slope is 174/899, while
the source computes (30 - 0)/30 = 1. -/
def c5_history : List HistDay :=
  [c5_day0, c5_day0, c5_day0, c5_day0, c5_day0, c5_day0, c5_day0, c5_day0, c5_day0, c5_day0, c5_day0, c5_day0, c5_day0, c5_day0, c5_day0, c5_day0, c5_day0, c5_day0, c5_day0, c5_day0, c5_day0, c5_day0, c5_day0, c5_day0, c5_day0, c5_day0, c5_day0, c5_day0, c5_day0, c5_day30]

/-- A one-day weather history (used to exhibit the dependence of the
forecast on the ambient random stream). -/
def c4_history : List HistDay :=
  [{ temperature := some 20, humidity := some 50, rainfall := some 0
     wind_speed := some 2, solar_radiation := some 20 }]

/-- A history record with every key absent. -/
def dummy_hist_day : HistDay :=
  { temperature := none, humidity := none, rainfall := none
    wind_speed := none, solar_radiation := none }

/-- Ordinary-least-squares slope of a series against time indices
0, 1, 2, ….  Modelled from the spec's words: the seasonal trend is "the
linear-regression slope of temperature and humidity over the last 30
days"; this is the comparison definition the claim is tested against. -/
def spec_linear_regression_slope (ys : List ℚ) : ℚ :=
  let n := ys.length
  let xs := (List.range n).map fun i => (i : ℚ)
  let xbar := list_mean xs
  let ybar := list_mean ys
  let num := ((xs.zip ys).map fun p => (p.1 - xbar) * (p.2 - ybar)).sum
  let den := (xs.map fun x => (x - xbar) ^ 2).sum
  num / den

/-! ## Rounding lemmas -/

theorem floor_le_roundHalfEven (q : ℚ) : ⌊q⌋ ≤ roundHalfEven q := by
  unfold roundHalfEven
  split_ifs <;> omega

theorem roundHalfEven_le_floor_add_one (q : ℚ) : roundHalfEven q ≤ ⌊q⌋ + 1 := by
  unfold roundHalfEven
  split_ifs <;> omega

theorem roundHalfEven_le_of_le_intCast {q : ℚ} {z : ℤ} (h : q ≤ (z : ℚ)) :
    roundHalfEven q ≤ z := by
  have hfl : ⌊q⌋ ≤ z := by
    have := Int.floor_le_floor h
    simpa using this
  unfold roundHalfEven
  split_ifs with h1 h2 h3
  · exact hfl
  · by_contra hcon
    push_neg at hcon
    have hz : z ≤ ⌊q⌋ := by omega
    have hzq : (z : ℚ) ≤ (⌊q⌋ : ℚ) := by exact_mod_cast hz
    have hq : q - (⌊q⌋ : ℚ) ≤ 0 := by linarith
    linarith
  · exact hfl
  · by_contra hcon
    push_neg at hcon
    have hz : z ≤ ⌊q⌋ := by omega
    have hzq : (z : ℚ) ≤ (⌊q⌋ : ℚ) := by exact_mod_cast hz
    have hq : q - (⌊q⌋ : ℚ) ≤ 0 := by linarith
    linarith

theorem intCast_le_roundHalfEven {q : ℚ} {z : ℤ} (h : (z : ℚ) ≤ q) :
    z ≤ roundHalfEven q := by
  have hfl : z ≤ ⌊q⌋ := Int.le_floor.mpr h
  exact le_trans hfl (floor_le_roundHalfEven q)

theorem roundHalfEven_mono {a b : ℚ} (hab : a ≤ b) :
    roundHalfEven a ≤ roundHalfEven b := by
  rcases lt_or_eq_of_le (Int.floor_le_floor hab) with hf | hf
  · calc roundHalfEven a ≤ ⌊a⌋ + 1 := roundHalfEven_le_floor_add_one a
      _ ≤ ⌊b⌋ := by omega
      _ ≤ roundHalfEven b := floor_le_roundHalfEven b
  · unfold roundHalfEven
    rw [← hf]
    have h1 : a - (⌊a⌋ : ℚ) ≤ b - (⌊a⌋ : ℚ) := by linarith
    split_ifs <;> first | omega | linarith

theorem roundHalfEven_intCast (z : ℤ) : roundHalfEven (z : ℚ) = z := by
  unfold roundHalfEven
  rw [Int.floor_intCast, sub_self]
  norm_num

theorem roundDec_le_of_le {n : ℕ} {q : ℚ} {z : ℤ} (h : q ≤ (z : ℚ) / 10 ^ n) :
    roundDec n q ≤ (z : ℚ) / 10 ^ n := by
  have hp : (0 : ℚ) < 10 ^ n := by positivity
  have h2 : q * 10 ^ n ≤ (z : ℚ) := (le_div_iff hp).mp h
  have h3 : roundHalfEven (q * 10 ^ n) ≤ z := roundHalfEven_le_of_le_intCast h2
  unfold roundDec
  have h4 : (roundHalfEven (q * 10 ^ n) : ℚ) ≤ (z : ℚ) := by exact_mod_cast h3
  exact div_le_div_of_nonneg_right h4 hp.le

theorem le_roundDec_of_le {n : ℕ} {q : ℚ} {z : ℤ} (h : (z : ℚ) / 10 ^ n ≤ q) :
    (z : ℚ) / 10 ^ n ≤ roundDec n q := by
  have hp : (0 : ℚ) < 10 ^ n := by positivity
  have h2 : (z : ℚ) ≤ q * 10 ^ n := (div_le_iff hp).mp h
  have h3 : z ≤ roundHalfEven (q * 10 ^ n) := intCast_le_roundHalfEven h2
  have h4 : (z : ℚ) ≤ (roundHalfEven (q * 10 ^ n) : ℚ) := by exact_mod_cast h3
  unfold roundDec
  exact div_le_div_of_nonneg_right h4 hp.le

theorem roundDec_mono {n : ℕ} {a b : ℚ} (hab : a ≤ b) : roundDec n a ≤ roundDec n b := by
  have hp : (0 : ℚ) < 10 ^ n := by positivity
  have h1 : a * 10 ^ n ≤ b * 10 ^ n := by
    exact mul_le_mul_of_nonneg_right hab (le_of_lt hp)
  have h2 : roundHalfEven (a * 10 ^ n) ≤ roundHalfEven (b * 10 ^ n) := roundHalfEven_mono h1
  have h3 : (roundHalfEven (a * 10 ^ n) : ℚ) ≤ (roundHalfEven (b * 10 ^ n) : ℚ) := by
    exact_mod_cast h2
  unfold roundDec
  exact div_le_div_of_nonneg_right h3 hp.le

/-- Values already on the `10 ^ n` grid are fixed by `roundDec n`. -/
theorem roundDec_on_grid {n : ℕ} {z : ℤ} : roundDec n ((z : ℚ) / 10 ^ n) = (z : ℚ) / 10 ^ n := by
  have hp : (0 : ℚ) < 10 ^ n := by positivity
  unfold roundDec
  rw [div_mul_cancel₀ _ (ne_of_gt hp), roundHalfEven_intCast]

/-! ## Case analysis for string-keyed parameter lookups -/

theorem crop_parameters_cases (crop_type : String) :
    crop_parameters crop_type = asparagus_params ∨
    crop_parameters crop_type = tomato_params ∨
    crop_parameters crop_type = wheat_params := by
  unfold crop_parameters
  split <;> simp

theorem soil_types_cases (soil_type : String) :
    soil_types soil_type = sandy_params ∨
    soil_types soil_type = loamy_params ∨
    soil_types soil_type = clay_params := by
  unfold soil_types
  split <;> simp

theorem vegetation_adjustment_cases (lai : ℚ) (crop_type : String) :
    calculate_vegetation_adjustment lai crop_type = 1.1 ∨
    calculate_vegetation_adjustment lai crop_type = 0.95 ∨
    calculate_vegetation_adjustment lai crop_type = 1.0 := by
  unfold calculate_vegetation_adjustment
  split_ifs <;> simp

/-- Claim C2: for every crop variant, soil variant and LAI value, the
computed trigger points satisfy the strict ordering
critical < high < medium < low in moisture units.  The crop and soil
arguments range over all strings: unknown keys resolve to the documented
fallbacks, which lie in the same tables. -/
theorem c2_trigger_points_strict_ordering (crop_type soil_type : String) (lai : ℚ) :
    (calculate_stress_threshold_fao56 crop_type soil_type lai).trigger_critical <
      (calculate_stress_threshold_fao56 crop_type soil_type lai).trigger_high ∧
    (calculate_stress_threshold_fao56 crop_type soil_type lai).trigger_high <
      (calculate_stress_threshold_fao56 crop_type soil_type lai).trigger_medium ∧
    (calculate_stress_threshold_fao56 crop_type soil_type lai).trigger_medium <
      (calculate_stress_threshold_fao56 crop_type soil_type lai).trigger_low := by
  rcases crop_parameters_cases crop_type with hc | hc | hc <;>
    rcases soil_types_cases soil_type with hs | hs | hs <;>
    rcases vegetation_adjustment_cases lai crop_type with ha | ha | ha <;>
    simp only [calculate_stress_threshold_fao56, hc, hs, ha] <;>
    norm_num [asparagus_params, tomato_params, wheat_params, sandy_params, loamy_params,
      clay_params, roundDec, roundHalfEven]

/-! ## Simulator loop lemmas -/

theorem run_hydro_aux_zero (c : HydroCtx) (hour : ℕ) (current : ℚ) :
    run_hydro_aux c hour 0 current = [] := rfl

theorem run_hydro_aux_succ (c : HydroCtx) (hour fuel : ℕ) (current : ℚ) :
    run_hydro_aux c hour (fuel + 1) current =
      hydro_record c hour (hydro_new_moisture c hour current) ::
        run_hydro_aux c (hour + 1) fuel (hydro_new_moisture c hour current) := rfl

theorem run_hydro_noperc_aux_zero (c : HydroCtx) (hour : ℕ) (current : ℚ) :
    run_hydro_noperc_aux c hour 0 current = [] := rfl

theorem run_hydro_noperc_aux_succ (c : HydroCtx) (hour fuel : ℕ) (current : ℚ) :
    run_hydro_noperc_aux c hour (fuel + 1) current =
      hydro_record c hour (hydro_new_moisture_noperc c hour current) ::
        run_hydro_noperc_aux c (hour + 1) fuel (hydro_new_moisture_noperc c hour current) := rfl

theorem run_hydro_perc_aux_zero (c : HydroCtx) (hour : ℕ) (current : ℚ) :
    run_hydro_perc_aux c hour 0 current = [] := rfl

theorem run_hydro_perc_aux_succ (c : HydroCtx) (hour fuel : ℕ) (current : ℚ) :
    run_hydro_perc_aux c hour (fuel + 1) current =
      calculate_deep_percolation current c.field_capacity c.hydraulic_conductivity ::
        run_hydro_perc_aux c (hour + 1) fuel (hydro_new_moisture c hour current) := rfl

theorem run_hydro_aux_length (c : HydroCtx) :
    ∀ fuel hour current, (run_hydro_aux c hour fuel current).length = fuel := by
  intro fuel
  induction fuel with
  | zero => intro hour current; rfl
  | succ n ih =>
    intro hour current
    rw [run_hydro_aux_succ]
    simp [ih]

theorem wp_le_hydro_new_moisture (c : HydroCtx) (hour : ℕ) (current : ℚ) :
    c.wilting_point ≤ hydro_new_moisture c hour current := by
  simp only [hydro_new_moisture]
  exact le_max_left _ _

theorem hydro_new_moisture_le_fc (c : HydroCtx)
    (hwf : c.wilting_point ≤ c.field_capacity) (hour : ℕ) (current : ℚ) :
    hydro_new_moisture c hour current ≤ c.field_capacity := by
  simp only [hydro_new_moisture]
  exact max_le hwf (min_le_left _ _)

/-- Every record emitted by the simulator loop has its soil moisture
within `[WP, FC]`, provided `WP ≤ FC` and both bounds lie on the
`10 ^ 4` grid (so that rounding to 4 decimals cannot escape them). -/
theorem run_hydro_aux_mem_bounds (c : HydroCtx) (zw zf : ℤ)
    (hwp : c.wilting_point = (zw : ℚ) / 10 ^ 4)
    (hfc : c.field_capacity = (zf : ℚ) / 10 ^ 4)
    (hle : c.wilting_point ≤ c.field_capacity) :
    ∀ fuel hour current, ∀ x ∈ run_hydro_aux c hour fuel current,
      c.wilting_point ≤ x.soil_moisture ∧ x.soil_moisture ≤ c.field_capacity ∧
      x.wilting_point = c.wilting_point ∧ x.field_capacity = c.field_capacity := by
  intro fuel
  induction fuel with
  | zero =>
    intro hour current x hx
    rw [run_hydro_aux_zero] at hx
    simp at hx
  | succ n ih =>
    intro hour current x hx
    rw [run_hydro_aux_succ] at hx
    rcases List.mem_cons.mp hx with h | h
    · subst h
      refine ⟨?_, ?_, rfl, rfl⟩
      · show c.wilting_point ≤ roundDec 4 (hydro_new_moisture c hour current)
        rw [hwp]
        exact le_roundDec_of_le
          (by rw [← hwp]; exact wp_le_hydro_new_moisture c hour current)
      · show roundDec 4 (hydro_new_moisture c hour current) ≤ c.field_capacity
        rw [hfc]
        exact roundDec_le_of_le
          (by rw [← hfc]; exact hydro_new_moisture_le_fc c hle hour current)
    · exact ih (hour + 1) _ x h

theorem mk_hydro_ctx_wilting_point (prims : MathPrims) (now : ℤ)
    (weather_forecast : List WeatherData) (veg_lai : ℚ) (crop_type soil_type : String) :
    (mk_hydro_ctx prims now weather_forecast veg_lai crop_type soil_type).wilting_point =
      (soil_types soil_type).wilting_point := rfl

theorem mk_hydro_ctx_field_capacity (prims : MathPrims) (now : ℤ)
    (weather_forecast : List WeatherData) (veg_lai : ℚ) (crop_type soil_type : String) :
    (mk_hydro_ctx prims now weather_forecast veg_lai crop_type soil_type).field_capacity =
      (soil_types soil_type).field_capacity := rfl

/-- Each table soil has its bounds on the `10 ^ 4` grid, ordered and
non-negative; unknown soil strings resolve to loamy. -/
theorem soil_types_grid (soil_type : String) :
    ∃ zw zf : ℤ, (soil_types soil_type).wilting_point = (zw : ℚ) / 10 ^ 4 ∧
      (soil_types soil_type).field_capacity = (zf : ℚ) / 10 ^ 4 ∧
      (soil_types soil_type).wilting_point ≤ (soil_types soil_type).field_capacity ∧
      0 ≤ (soil_types soil_type).wilting_point := by
  rcases soil_types_cases soil_type with h | h | h <;> rw [h]
  · exact ⟨1000, 2500, by norm_num [sandy_params], by norm_num [sandy_params],
      by norm_num [sandy_params], by norm_num [sandy_params]⟩
  · exact ⟨1500, 3500, by norm_num [loamy_params], by norm_num [loamy_params],
      by norm_num [loamy_params], by norm_num [loamy_params]⟩
  · exact ⟨2000, 4500, by norm_num [clay_params], by norm_num [clay_params],
      by norm_num [clay_params], by norm_num [clay_params]⟩

/-- Claim C1: for every initial state and every 72-hour (3-day) forecast,
the simulator emits exactly 72 records, and every emitted record
satisfies wilting_point ≤ soil_moisture ≤ field_capacity. -/
theorem c1_soil_moisture_within_bounds (prims : MathPrims) (now : ℤ)
    (initial_conditions : InitialConditions) (weather_forecast : List WeatherData)
    (veg_lai : ℚ) (crop_type soil_type : String)
    (hlen : weather_forecast.length = 3) :
    (run_hydrological_model_fest_ewb prims now initial_conditions weather_forecast
        veg_lai crop_type soil_type).length = 72 ∧
    ∀ x ∈ run_hydrological_model_fest_ewb prims now initial_conditions weather_forecast
        veg_lai crop_type soil_type,
      x.wilting_point ≤ x.soil_moisture ∧ x.soil_moisture ≤ x.field_capacity := by
  obtain ⟨zw, zf, hwp, hfc, hle, -⟩ := soil_types_grid soil_type
  constructor
  · unfold run_hydrological_model_fest_ewb
    exact run_hydro_aux_length _ _ _ _
  · intro x hx
    unfold run_hydrological_model_fest_ewb at hx
    have hb := run_hydro_aux_mem_bounds
      (mk_hydro_ctx prims now weather_forecast veg_lai crop_type soil_type) zw zf
      hwp hfc hle
      forecast_horizon 0 initial_conditions.soil_water_content x hx
    obtain ⟨h1, h2, h3, h4⟩ := hb
    rw [h3, h4]
    exact ⟨h1, h2⟩

/-- Witness for C1 at a concrete input. -/
theorem c1_witness :
    witness_forecast.length = 3 ∧
    ((run_hydrological_model_fest_ewb witness_prims 0 witness_ic witness_forecast
        2.5 "asparagus" "loamy").length = 72 ∧
    ∀ x ∈ run_hydrological_model_fest_ewb witness_prims 0 witness_ic witness_forecast
        2.5 "asparagus" "loamy",
      x.wilting_point ≤ x.soil_moisture ∧ x.soil_moisture ≤ x.field_capacity) :=
  ⟨rfl, c1_soil_moisture_within_bounds witness_prims 0 witness_ic witness_forecast
    2.5 "asparagus" "loamy" rfl⟩

/-! ## Purity of the moisture values with respect to the wall clock (C3) -/

theorem mk_hydro_ctx_now (prims : MathPrims) (now : ℤ) (weather_forecast : List WeatherData)
    (veg_lai : ℚ) (crop_type soil_type : String) :
    (mk_hydro_ctx prims now weather_forecast veg_lai crop_type soil_type).now = now := rfl

theorem run_hydro_aux_values_now_invariant (c : HydroCtx) (now2 : ℤ) :
    ∀ fuel hour current,
      (run_hydro_aux c hour fuel current).map SoilMoistureData.values =
        (run_hydro_aux { c with now := now2 } hour fuel current).map SoilMoistureData.values := by
  intro fuel
  induction fuel with
  | zero => intro hour current; rfl
  | succ n ih =>
    intro hour current
    rw [run_hydro_aux_succ, run_hydro_aux_succ]
    simp only [List.map_cons]
    exact congrArg₂ List.cons rfl (ih (hour + 1) (hydro_new_moisture c hour current))

/-- Claim C3, counterexample: two runs of the simulator on identical
(initial conditions, forecast, vegetation, crop, soil) inputs but at
different wall-clock instants produce different 72-point series, because
each emitted record's timestamp is built from `datetime.now()`. -/
theorem c3_counterexample_timestamp_impurity :
    run_hydrological_model_fest_ewb witness_prims 0 witness_ic witness_forecast
        2.5 "asparagus" "loamy" ≠
      run_hydrological_model_fest_ewb witness_prims 1 witness_ic witness_forecast
        2.5 "asparagus" "loamy" := by
  intro h
  have key : ∀ now : ℤ,
      (run_hydrological_model_fest_ewb witness_prims now witness_ic witness_forecast
        2.5 "asparagus" "loamy").head?.map SoilMoistureData.datetime = some now := by
    intro now
    unfold run_hydrological_model_fest_ewb
    rw [show forecast_horizon = 71 + 1 from rfl, run_hydro_aux_succ]
    simp [hydro_record, mk_hydro_ctx_now]
  have h2 := congrArg (fun l => l.head?.map SoilMoistureData.datetime) h
  simp only [key 0, key 1] at h2
  exact absurd (Option.some.inj h2) (by norm_num)

/-- Claim C3 amended: the simulator is a deterministic pure function of
(initial moisture, forecast series, vegetation LAI, crop/soil parameters)
in every emitted field except the timestamp; the timestamps are taken
from the wall clock at invocation, so only they vary between two runs on
identical inputs. -/
theorem c3_moisture_series_pure_up_to_timestamps (prims : MathPrims) (now1 now2 : ℤ)
    (initial_conditions : InitialConditions) (weather_forecast : List WeatherData)
    (veg_lai : ℚ) (crop_type soil_type : String) :
    (run_hydrological_model_fest_ewb prims now1 initial_conditions weather_forecast
        veg_lai crop_type soil_type).map SoilMoistureData.values =
      (run_hydrological_model_fest_ewb prims now2 initial_conditions weather_forecast
        veg_lai crop_type soil_type).map SoilMoistureData.values := by
  unfold run_hydrological_model_fest_ewb
  exact run_hydro_aux_values_now_invariant
    (mk_hydro_ctx prims now1 weather_forecast veg_lai crop_type soil_type) now2
    forecast_horizon 0 initial_conditions.soil_water_content

/-! ## Sign and vanishing lemmas for the water-balance terms -/

theorem fetch_forecast_day_rainfall_zero {weather_forecast : List WeatherData}
    (h : ∀ w ∈ weather_forecast, w.rainfall = 0) (i : ℕ) :
    (fetch_forecast_day weather_forecast i).rainfall = 0 := by
  unfold fetch_forecast_day
  split_ifs with hi
  · rw [List.getD_eq_getElem _ _ hi]
    exact h _ (List.getElem_mem hi)
  · cases weather_forecast with
    | nil => rfl
    | cons a as =>
      have hmem : (a :: as).getLastD dummy_weather ∈ a :: as := by
        rw [List.getLastD_eq_getLast?, List.getLast?_eq_getLast _ (by simp)]
        simp [List.getLast_mem]
      exact h _ hmem

theorem calculate_hourly_et0_nonneg (prims : MathPrims) (t h w s : ℚ) :
    0 ≤ calculate_hourly_et0 prims t h w s := by
  unfold calculate_hourly_et0 calculate_reference_et_penman_monteith
  positivity

theorem get_crop_coefficient_nonneg (crop_type : String) (lai : ℚ) :
    0 ≤ get_crop_coefficient crop_type lai := by
  rcases crop_parameters_cases crop_type with h | h | h <;>
    (unfold get_crop_coefficient; rw [h]; split_ifs) <;>
    norm_num [asparagus_params, tomato_params, wheat_params]

theorem hydro_crop_et_nonneg (c : HydroCtx) (hour : ℕ) : 0 ≤ hydro_crop_et c hour := by
  simp only [hydro_crop_et]
  exact mul_nonneg (calculate_hourly_et0_nonneg _ _ _ _ _)
    (get_crop_coefficient_nonneg _ _)

theorem calculate_deep_percolation_eq_zero {m fc k : ℚ} (h : m ≤ fc) :
    calculate_deep_percolation m fc k = 0 := by
  unfold calculate_deep_percolation
  rw [if_pos h]

theorem calculate_deep_percolation_nonneg {m fc k : ℚ} (hk : 0 ≤ k) :
    0 ≤ calculate_deep_percolation m fc k := by
  unfold calculate_deep_percolation
  split_ifs with h
  · exact le_refl 0
  · push_neg at h
    exact le_min (by nlinarith) (by linarith)

theorem hydro_infiltration_eq_zero (c : HydroCtx)
    (hr : ∀ w ∈ c.weather_forecast, w.rainfall = 0)
    (hinf : 0 ≤ c.infiltration_rate) (hour : ℕ) :
    hydro_infiltration c hour = 0 := by
  simp only [hydro_infiltration]
  rw [fetch_forecast_day_rainfall_zero hr]
  simp [hinf]

/-- With rain-free forecasts the hourly update never raises the
moisture, provided the state is within the physical bounds. -/
theorem hydro_new_moisture_le_self (c : HydroCtx)
    (hr : ∀ w ∈ c.weather_forecast, w.rainfall = 0)
    (hinf : 0 ≤ c.infiltration_rate) (hk : 0 ≤ c.hydraulic_conductivity)
    (hrd : 0 < c.root_depth) (hour : ℕ) {current : ℚ}
    (h1 : c.wilting_point ≤ current) (h2 : current ≤ c.field_capacity) :
    hydro_new_moisture c hour current ≤ current := by
  simp only [hydro_new_moisture]
  rw [hydro_infiltration_eq_zero c hr hinf hour]
  have het := hydro_crop_et_nonneg c hour
  have hperc : 0 ≤ calculate_deep_percolation current c.field_capacity
      c.hydraulic_conductivity := calculate_deep_percolation_nonneg hk
  have hden : (0 : ℚ) < c.root_depth * 1000 := by
    have : (0 : ℚ) < 1000 := by norm_num
    exact mul_pos hrd this
  have hdelta : (0 - hydro_crop_et c hour -
      calculate_deep_percolation current c.field_capacity c.hydraulic_conductivity) /
      (c.root_depth * 1000) ≤ 0 :=
    div_nonpos_of_nonpos_of_nonneg (by linarith) hden.le
  have hmin : min c.field_capacity (current +
      (0 - hydro_crop_et c hour -
        calculate_deep_percolation current c.field_capacity c.hydraulic_conductivity) /
      (c.root_depth * 1000)) ≤ current :=
    le_trans (min_le_right _ _) (by linarith)
  exact max_le h1 hmin

/-- The monotone-chain invariant of the simulator loop under rain-free
forecasts: the emitted series is hour-to-hour non-increasing, and its
first element is at most the rounded incoming state. -/
theorem run_hydro_aux_chain (c : HydroCtx)
    (hr : ∀ w ∈ c.weather_forecast, w.rainfall = 0)
    (hle : c.wilting_point ≤ c.field_capacity)
    (hinf : 0 ≤ c.infiltration_rate) (hk : 0 ≤ c.hydraulic_conductivity)
    (hrd : 0 < c.root_depth) :
    ∀ fuel hour current, c.wilting_point ≤ current → current ≤ c.field_capacity →
      List.Chain' (fun a b => b.soil_moisture ≤ a.soil_moisture)
        (run_hydro_aux c hour fuel current) ∧
      ∀ y ∈ (run_hydro_aux c hour fuel current).head?, y.soil_moisture ≤ roundDec 4 current := by
  intro fuel
  induction fuel with
  | zero =>
    intro hour current h1 h2
    rw [run_hydro_aux_zero]
    exact ⟨List.chain'_nil, by simp⟩
  | succ n ih =>
    intro hour current h1 h2
    rw [run_hydro_aux_succ]
    have hb1 : c.wilting_point ≤ hydro_new_moisture c hour current :=
      wp_le_hydro_new_moisture c hour current
    have hb2 : hydro_new_moisture c hour current ≤ c.field_capacity :=
      hydro_new_moisture_le_fc c hle hour current
    have hself : hydro_new_moisture c hour current ≤ current :=
      hydro_new_moisture_le_self c hr hinf hk hrd hour h1 h2
    obtain ⟨hch, hhd⟩ := ih (hour + 1) (hydro_new_moisture c hour current) hb1 hb2
    constructor
    · rw [List.chain'_cons']
      refine ⟨?_, hch⟩
      intro y hy
      exact le_trans (hhd y hy) le_rfl
    · intro y hy
      simp only [List.head?_cons, Option.mem_def, Option.some.injEq] at hy
      subst hy
      show roundDec 4 (hydro_new_moisture c hour current) ≤ roundDec 4 current
      exact roundDec_mono hself

theorem soil_types_rates_nonneg (soil_type : String) :
    0 ≤ (soil_types soil_type).infiltration_rate ∧
      0 ≤ (soil_types soil_type).hydraulic_conductivity := by
  rcases soil_types_cases soil_type with h | h | h <;> rw [h] <;>
    norm_num [sandy_params, loamy_params, clay_params]

theorem crop_rooting_depth_pos (crop_type : String) :
    0 < (crop_parameters crop_type).rooting_depth := by
  rcases crop_parameters_cases crop_type with h | h | h <;> rw [h] <;>
    norm_num [asparagus_params, tomato_params, wheat_params]

/-- Claim C10: for every forecast in which every day's rainfall is 0, the
emitted soil-moisture series is monotonically non-increasing hour to
hour. -/
theorem c10_moisture_monotone_nonincreasing (prims : MathPrims) (now : ℤ)
    (initial_conditions : InitialConditions) (weather_forecast : List WeatherData)
    (veg_lai : ℚ) (crop_type soil_type : String)
    (hr : ∀ w ∈ weather_forecast, w.rainfall = 0) :
    List.Chain' (fun a b => b.soil_moisture ≤ a.soil_moisture)
      (run_hydrological_model_fest_ewb prims now initial_conditions weather_forecast
        veg_lai crop_type soil_type) := by
  obtain ⟨zw, zf, hwp, hfc, hle, -⟩ := soil_types_grid soil_type
  obtain ⟨hinf, hk⟩ := soil_types_rates_nonneg soil_type
  have hrd := crop_rooting_depth_pos crop_type
  unfold run_hydrological_model_fest_ewb
  rw [show forecast_horizon = 71 + 1 from rfl, run_hydro_aux_succ]
  set c := mk_hydro_ctx prims now weather_forecast veg_lai crop_type soil_type with hc
  have hb1 : c.wilting_point ≤ hydro_new_moisture c 0 initial_conditions.soil_water_content :=
    wp_le_hydro_new_moisture c 0 _
  have hb2 : hydro_new_moisture c 0 initial_conditions.soil_water_content ≤ c.field_capacity :=
    hydro_new_moisture_le_fc c hle 0 _
  obtain ⟨hch, hhd⟩ := run_hydro_aux_chain c hr hle hinf hk hrd 71 1
    (hydro_new_moisture c 0 initial_conditions.soil_water_content) hb1 hb2
  rw [List.chain'_cons']
  refine ⟨?_, hch⟩
  intro y hy
  exact hhd y hy

/-- Witness for C10 at a concrete rain-free forecast. -/
theorem c10_witness :
    (∀ w ∈ witness_forecast, w.rainfall = 0) ∧
    List.Chain' (fun a b => b.soil_moisture ≤ a.soil_moisture)
      (run_hydrological_model_fest_ewb witness_prims 0 witness_ic witness_forecast
        2.5 "asparagus" "loamy") :=
  ⟨by simp [witness_forecast], c10_moisture_monotone_nonincreasing witness_prims 0
    witness_ic witness_forecast 2.5 "asparagus" "loamy" (by simp [witness_forecast])⟩

/-! ## The percolation term vanishes on every reachable run (C9) -/

theorem run_hydro_aux_eq_noperc (c : HydroCtx)
    (hle : c.wilting_point ≤ c.field_capacity) :
    ∀ fuel hour current, current ≤ c.field_capacity →
      run_hydro_aux c hour fuel current = run_hydro_noperc_aux c hour fuel current ∧
      run_hydro_perc_aux c hour fuel current = List.replicate fuel 0 := by
  intro fuel
  induction fuel with
  | zero => intro hour current _; exact ⟨rfl, rfl⟩
  | succ n ih =>
    intro hour current h
    have hperc : calculate_deep_percolation current c.field_capacity
        c.hydraulic_conductivity = 0 := calculate_deep_percolation_eq_zero h
    have hnm : hydro_new_moisture c hour current = hydro_new_moisture_noperc c hour current := by
      simp only [hydro_new_moisture, hydro_new_moisture_noperc, hperc, sub_zero]
    have hb2 : hydro_new_moisture c hour current ≤ c.field_capacity :=
      hydro_new_moisture_le_fc c hle hour current
    obtain ⟨ih1, ih2⟩ := ih (hour + 1) (hydro_new_moisture c hour current) hb2
    constructor
    · rw [run_hydro_aux_succ, run_hydro_noperc_aux_succ, ← hnm, ih1]
    · rw [run_hydro_perc_aux_succ, hperc, ih2, List.replicate_succ]

theorem get_default_initial_conditions_swc_le (crop_type soil_type : String) :
    (get_default_initial_conditions crop_type soil_type).soil_water_content ≤
      (soil_types soil_type).field_capacity := by
  obtain ⟨zw, zf, hwp, hfc, hle, hwnn⟩ := soil_types_grid soil_type
  show (soil_types soil_type).field_capacity * 0.7 ≤ (soil_types soil_type).field_capacity
  have h0 : 0 ≤ (soil_types soil_type).field_capacity := le_trans hwnn hle
  nlinarith

theorem get_initial_conditions_fest_ewb_swc_le (prims : MathPrims)
    (lai_data : List LaiRecord) (weather_data : List HistDay)
    (satellite_data : SatelliteData) (crop_type soil_type : String) :
    (get_initial_conditions_fest_ewb prims lai_data weather_data satellite_data
        crop_type soil_type).soil_water_content ≤ (soil_types soil_type).field_capacity := by
  obtain ⟨zw, zf, hwp, hfc, hle, -⟩ := soil_types_grid soil_type
  unfold get_initial_conditions_fest_ewb
  split_ifs with h
  · exact get_default_initial_conditions_swc_le crop_type soil_type
  · show roundDec 4 (max (soil_types soil_type).wilting_point
      (min (soil_types soil_type).field_capacity _)) ≤ (soil_types soil_type).field_capacity
    rw [hfc]
    exact roundDec_le_of_le (by rw [← hfc]; exact max_le hle (min_le_left _ _))

/-- Claim C9: because both initial-condition producers clamp the initial
soil water content to at most the soil's field capacity and the hourly
update re-clamps to at most field capacity, the deep-percolation term is
0 at every one of the 72 hours, and the simulator is extensionally equal
to the same simulator with the percolation term removed — on both the
data-driven and the default initial-condition path. -/
theorem c9_percolation_always_zero (prims : MathPrims) (now : ℤ)
    (lai_data : List LaiRecord) (weather_data : List HistDay)
    (satellite_data : SatelliteData) (weather_forecast : List WeatherData)
    (veg_lai : ℚ) (crop_type soil_type : String) :
    (run_hydrological_model_fest_ewb prims now
        (get_initial_conditions_fest_ewb prims lai_data weather_data satellite_data
          crop_type soil_type) weather_forecast veg_lai crop_type soil_type =
      run_hydrological_model_noperc prims now
        (get_initial_conditions_fest_ewb prims lai_data weather_data satellite_data
          crop_type soil_type) weather_forecast veg_lai crop_type soil_type) ∧
    (∀ p ∈ run_hydrological_model_percolation_trace prims now
        (get_initial_conditions_fest_ewb prims lai_data weather_data satellite_data
          crop_type soil_type) weather_forecast veg_lai crop_type soil_type, p = 0) ∧
    (run_hydrological_model_fest_ewb prims now
        (get_default_initial_conditions crop_type soil_type)
        weather_forecast veg_lai crop_type soil_type =
      run_hydrological_model_noperc prims now
        (get_default_initial_conditions crop_type soil_type)
        weather_forecast veg_lai crop_type soil_type) ∧
    (∀ p ∈ run_hydrological_model_percolation_trace prims now
        (get_default_initial_conditions crop_type soil_type)
        weather_forecast veg_lai crop_type soil_type, p = 0) := by
  obtain ⟨zw, zf, hwp, hfc, hle, -⟩ := soil_types_grid soil_type
  have h1 := get_initial_conditions_fest_ewb_swc_le prims lai_data weather_data
    satellite_data crop_type soil_type
  have h2 := get_default_initial_conditions_swc_le crop_type soil_type
  have e1 := run_hydro_aux_eq_noperc
    (mk_hydro_ctx prims now weather_forecast veg_lai crop_type soil_type) hle
    forecast_horizon 0 _ h1
  have e2 := run_hydro_aux_eq_noperc
    (mk_hydro_ctx prims now weather_forecast veg_lai crop_type soil_type) hle
    forecast_horizon 0 _ h2
  refine ⟨e1.1, ?_, e2.1, ?_⟩
  · intro p hp
    have := e1.2
    unfold run_hydrological_model_percolation_trace at hp
    rw [this] at hp
    exact List.eq_of_mem_replicate hp
  · intro p hp
    have := e2.2
    unfold run_hydrological_model_percolation_trace at hp
    rw [this] at hp
    exact List.eq_of_mem_replicate hp

/-! ## Behaviour at the wilting-point boundary (C8) -/

theorem hydro_new_moisture_at_wp (c : HydroCtx)
    (hr : ∀ w ∈ c.weather_forecast, w.rainfall = 0)
    (hle : c.wilting_point ≤ c.field_capacity)
    (hinf : 0 ≤ c.infiltration_rate) (hk : 0 ≤ c.hydraulic_conductivity)
    (hrd : 0 < c.root_depth) (hour : ℕ) :
    hydro_new_moisture c hour c.wilting_point = c.wilting_point :=
  le_antisymm (hydro_new_moisture_le_self c hr hinf hk hrd hour le_rfl hle)
    (wp_le_hydro_new_moisture c hour c.wilting_point)

theorem run_hydro_aux_wp_moisture (c : HydroCtx)
    (hr : ∀ w ∈ c.weather_forecast, w.rainfall = 0)
    (hle : c.wilting_point ≤ c.field_capacity)
    (hinf : 0 ≤ c.infiltration_rate) (hk : 0 ≤ c.hydraulic_conductivity)
    (hrd : 0 < c.root_depth) :
    ∀ fuel hour, ∀ x ∈ run_hydro_aux c hour fuel c.wilting_point,
      x.soil_moisture = roundDec 4 c.wilting_point := by
  intro fuel
  induction fuel with
  | zero =>
    intro hour x hx
    rw [run_hydro_aux_zero] at hx
    simp at hx
  | succ n ih =>
    intro hour x hx
    rw [run_hydro_aux_succ, hydro_new_moisture_at_wp c hr hle hinf hk hrd hour] at hx
    rcases List.mem_cons.mp hx with h | h
    · subst h; rfl
    · exact ih (hour + 1) x h

theorem stress_level_and_weight_critical {sm : ℚ} {th : StressThresholdData}
    (h : sm < th.trigger_critical) : stress_level_and_weight sm th = ("critical", 1) := by
  unfold stress_level_and_weight
  rw [if_pos h]

/-- When every forecast point is below the critical trigger, the stress
scan records a critical event for every point and marks every index as a
critical period. -/
theorem analyze_stress_go_all_critical (th : StressThresholdData) :
    ∀ l : List SoilMoistureData, (∀ x ∈ l, x.soil_moisture < th.trigger_critical) →
      ∀ i, (analyze_stress_go th i l).events.length = l.length ∧
        (∀ e ∈ (analyze_stress_go th i l).events, e.stress_level = "critical") ∧
        (analyze_stress_go th i l).criticals.length = l.length := by
  intro l
  induction l with
  | nil =>
    intro _ i
    refine ⟨rfl, ?_, rfl⟩
    intro e he
    simp [analyze_stress_go] at he
  | cons f rest ih =>
    intro hall i
    have hf : f.soil_moisture < th.trigger_critical := hall f (by simp)
    have hlw := stress_level_and_weight_critical hf
    obtain ⟨ih1, ih2, ih3⟩ := ih (fun x hx => hall x (List.mem_cons_of_mem f hx)) (i + 1)
    have hstep_events : (analyze_stress_go th i (f :: rest)).events =
        { hour := i, datetime := f.datetime, soil_moisture := f.soil_moisture
          deficit := f.deficit, stress_level := "critical"
          urgency_score := calculate_urgency_score f.soil_moisture th } ::
          (analyze_stress_go th (i + 1) rest).events := by
      simp only [analyze_stress_go, hlw]
      simp
    have hstep_criticals : (analyze_stress_go th i (f :: rest)).criticals =
        i :: (analyze_stress_go th (i + 1) rest).criticals := by
      simp only [analyze_stress_go, hlw]
      simp
    refine ⟨?_, ?_, ?_⟩
    · rw [hstep_events]
      simp [ih1]
    · rw [hstep_events]
      intro e he
      rcases List.mem_cons.mp he with h | h
      · subst h; rfl
      · exact ih2 e h
    · rw [hstep_criticals]
      simp [ih3]

/-- Claim C8: if the initial moisture equals the wilting point and the
forecast is rain-free, then every emitted moisture value stays exactly at
the wilting point (never below), every one of the 72 hours is classified
critical, and the resulting irrigation urgency is critical.  (A nonzero
evapotranspiration is allowed but not required: the conclusion holds for
every ET value, which subsumes the claim's hypothesis.) -/
theorem c8_wilting_point_boundary (prims : MathPrims) (now : ℤ)
    (initial_conditions : InitialConditions) (weather_forecast : List WeatherData)
    (veg_lai : ℚ) (crop_type soil_type : String)
    (hr : ∀ w ∈ weather_forecast, w.rainfall = 0)
    (hinit : initial_conditions.soil_water_content = (soil_types soil_type).wilting_point) :
    (∀ x ∈ run_hydrological_model_fest_ewb prims now initial_conditions weather_forecast
        veg_lai crop_type soil_type,
      x.soil_moisture = (soil_types soil_type).wilting_point) ∧
    (analyze_stress_conditions_pregi
        (run_hydrological_model_fest_ewb prims now initial_conditions weather_forecast
          veg_lai crop_type soil_type)
        (calculate_stress_threshold_fao56 crop_type soil_type veg_lai)).stress_events.length
      = 72 ∧
    (∀ e ∈ (analyze_stress_conditions_pregi
        (run_hydrological_model_fest_ewb prims now initial_conditions weather_forecast
          veg_lai crop_type soil_type)
        (calculate_stress_threshold_fao56 crop_type soil_type veg_lai)).stress_events,
      e.stress_level = "critical") ∧
    (analyze_stress_conditions_pregi
        (run_hydrological_model_fest_ewb prims now initial_conditions weather_forecast
          veg_lai crop_type soil_type)
        (calculate_stress_threshold_fao56 crop_type soil_type veg_lai)).irrigation_urgency
      = "critical" := by
  obtain ⟨zw, zf, hwp, hfc, hle, -⟩ := soil_types_grid soil_type
  obtain ⟨hinf, hk⟩ := soil_types_rates_nonneg soil_type
  have hrd := crop_rooting_depth_pos crop_type
  have hwpr : roundDec 4 (soil_types soil_type).wilting_point =
      (soil_types soil_type).wilting_point := by
    rw [hwp, roundDec_on_grid]
  have hmo : ∀ x ∈ run_hydrological_model_fest_ewb prims now initial_conditions
      weather_forecast veg_lai crop_type soil_type,
      x.soil_moisture = (soil_types soil_type).wilting_point := by
    intro x hx
    unfold run_hydrological_model_fest_ewb at hx
    rw [hinit] at hx
    have hv := run_hydro_aux_wp_moisture
      (mk_hydro_ctx prims now weather_forecast veg_lai crop_type soil_type)
      hr hle hinf hk hrd forecast_horizon 0 x hx
    rw [hv]
    exact hwpr
  have hth : (calculate_stress_threshold_fao56 crop_type soil_type veg_lai).trigger_critical =
      (soil_types soil_type).wilting_point + 0.02 := by
    show roundDec 4 ((soil_types soil_type).wilting_point + 0.02) = _
    rw [hwp]
    have h1 : (zw : ℚ) / 10 ^ 4 + 0.02 = ((zw + 200 : ℤ) : ℚ) / 10 ^ 4 := by
      push_cast
      ring
    rw [h1, roundDec_on_grid]
  have hall : ∀ x ∈ run_hydrological_model_fest_ewb prims now initial_conditions
      weather_forecast veg_lai crop_type soil_type,
      x.soil_moisture <
        (calculate_stress_threshold_fao56 crop_type soil_type veg_lai).trigger_critical := by
    intro x hx
    rw [hmo x hx, hth]
    have h2 : (0 : ℚ) < 0.02 := by norm_num
    linarith
  have hlen : (run_hydrological_model_fest_ewb prims now initial_conditions weather_forecast
      veg_lai crop_type soil_type).length = 72 := by
    unfold run_hydrological_model_fest_ewb
    exact run_hydro_aux_length _ _ _ _
  obtain ⟨e1, e2, e3⟩ := analyze_stress_go_all_critical
    (calculate_stress_threshold_fao56 crop_type soil_type veg_lai) _ hall 0
  refine ⟨hmo, e1.trans hlen, e2, ?_⟩
  show determine_irrigation_urgency _ _ = "critical"
  unfold determine_irrigation_urgency
  rw [if_pos]
  rw [e3, hlen]
  norm_num

/-- Witness for C8 at a concrete input: loamy soil, initial moisture at
its wilting point 0.15, rain-free 3-day forecast. -/
theorem c8_witness :
    (∀ w ∈ witness_forecast, w.rainfall = 0) ∧
    witness_ic.soil_water_content = (soil_types "loamy").wilting_point ∧
    ((∀ x ∈ run_hydrological_model_fest_ewb witness_prims 0 witness_ic witness_forecast
        2.5 "asparagus" "loamy",
      x.soil_moisture = (soil_types "loamy").wilting_point) ∧
    (analyze_stress_conditions_pregi
        (run_hydrological_model_fest_ewb witness_prims 0 witness_ic witness_forecast
          2.5 "asparagus" "loamy")
        (calculate_stress_threshold_fao56 "asparagus" "loamy" 2.5)).stress_events.length
      = 72 ∧
    (∀ e ∈ (analyze_stress_conditions_pregi
        (run_hydrological_model_fest_ewb witness_prims 0 witness_ic witness_forecast
          2.5 "asparagus" "loamy")
        (calculate_stress_threshold_fao56 "asparagus" "loamy" 2.5)).stress_events,
      e.stress_level = "critical") ∧
    (analyze_stress_conditions_pregi
        (run_hydrological_model_fest_ewb witness_prims 0 witness_ic witness_forecast
          2.5 "asparagus" "loamy")
        (calculate_stress_threshold_fao56 "asparagus" "loamy" 2.5)).irrigation_urgency
      = "critical") :=
  ⟨by simp [witness_forecast], rfl,
    c8_wilting_point_boundary witness_prims 0 witness_ic witness_forecast
      2.5 "asparagus" "loamy" (by simp [witness_forecast]) rfl⟩

/-! ## No-stress recommendation (C6) -/

theorem analyze_stress_go_events_nil (th : StressThresholdData) (pt : SoilMoistureData)
    (hnone : stress_level_and_weight pt.soil_moisture th = ("none", 0)) :
    ∀ n i, (analyze_stress_go th i (List.replicate n pt)).events = [] := by
  intro n
  induction n with
  | zero => intro i; rfl
  | succ m ih =>
    intro i
    rw [List.replicate_succ]
    have hstep : (analyze_stress_go th i (pt :: List.replicate m pt)).events =
        (analyze_stress_go th (i + 1) (List.replicate m pt)).events := by
      simp only [analyze_stress_go, hnone]
      simp
    rw [hstep, ih]

/-- Claim C6: whenever the stress analysis produces no stress events, the
schedule generator returns exactly the fixed no-irrigation
recommendation: needs_irrigation false, confidence 75 + 15 = 90, zero
water, 100 % water savings. -/
theorem c6_no_stress_recommendation (now : ℤ)
    (soil_moisture_forecast : List SoilMoistureData) (th : StressThresholdData)
    (initial_conditions : InitialConditions) (weather_forecast : List WeatherData)
    (crop_type soil_type irrigation_system : String)
    (hno : (analyze_stress_conditions_pregi soil_moisture_forecast th).stress_events = []) :
    generate_irrigation_schedule now
        (analyze_stress_conditions_pregi soil_moisture_forecast th)
        initial_conditions weather_forecast crop_type soil_type irrigation_system =
      { needs_irrigation := false
        confidence := 90
        reasoning :=
          "No water stress detected in 72-hour forecast. Current soil moisture levels are adequate."
        water_amount := 0
        irrigation_method := "None required"
        timing := "Monitor conditions"
        schedule := none
        cost_estimate := 0
        water_savings := 100
        yield_impact := "No impact expected"
        environmental_impact := "Positive - water conservation" } := by
  have htrig : (analyze_stress_conditions_pregi soil_moisture_forecast th).irrigation_triggered
      = false := by
    show decide ((analyze_stress_go th 0 soil_moisture_forecast).events.length > 0) = false
    have hev : (analyze_stress_go th 0 soil_moisture_forecast).events = [] := hno
    rw [hev]
    rfl
  simp only [generate_irrigation_schedule, htrig]
  norm_num

/-- Witness for C6: a 72-point forecast resting at field capacity
produces no stress events, and the generator returns the fixed record. -/
theorem c6_witness :
    (analyze_stress_conditions_pregi (List.replicate 72 witness_wet_point)
        (calculate_stress_threshold_fao56 "asparagus" "loamy" 2.5)).stress_events = [] ∧
    generate_irrigation_schedule 0
        (analyze_stress_conditions_pregi (List.replicate 72 witness_wet_point)
          (calculate_stress_threshold_fao56 "asparagus" "loamy" 2.5))
        witness_ic witness_forecast "asparagus" "loamy" "drip" =
      { needs_irrigation := false
        confidence := 90
        reasoning :=
          "No water stress detected in 72-hour forecast. Current soil moisture levels are adequate."
        water_amount := 0
        irrigation_method := "None required"
        timing := "Monitor conditions"
        schedule := none
        cost_estimate := 0
        water_savings := 100
        yield_impact := "No impact expected"
        environmental_impact := "Positive - water conservation" } := by
  have hnone : stress_level_and_weight witness_wet_point.soil_moisture
      (calculate_stress_threshold_fao56 "asparagus" "loamy" 2.5) = ("none", 0) := by
    have hc : crop_parameters "asparagus" = asparagus_params := rfl
    have hs : soil_types "loamy" = loamy_params := rfl
    have hadj : calculate_vegetation_adjustment 2.5 "asparagus" = 1.0 := by
      unfold calculate_vegetation_adjustment
      norm_num
    unfold stress_level_and_weight
    simp only [calculate_stress_threshold_fao56, hc, hs, hadj]
    norm_num [witness_wet_point, asparagus_params, loamy_params, roundDec, roundHalfEven]
  have hstress : (analyze_stress_conditions_pregi (List.replicate 72 witness_wet_point)
      (calculate_stress_threshold_fao56 "asparagus" "loamy" 2.5)).stress_events = [] := by
    show (analyze_stress_go (calculate_stress_threshold_fao56 "asparagus" "loamy" 2.5) 0
      (List.replicate 72 witness_wet_point)).events = []
    exact analyze_stress_go_events_nil _ _ hnone 72 0
  exact ⟨hstress, c6_no_stress_recommendation 0 (List.replicate 72 witness_wet_point)
    (calculate_stress_threshold_fao56 "asparagus" "loamy" 2.5)
    witness_ic witness_forecast "asparagus" "loamy" "drip" hstress⟩

/-! ## Exception fallback of the orchestrator (C7) -/

/-- Claim C7: any exception raised in the pipeline stages is caught by
`analyze_smart_irrigation` and converted into the fixed fallback response
(needs_irrigation false, confidence 50, explanatory text, `error` key
set).  The function returns an `AnalysisResponse` on every input of the
abstracted try body, so no exception reaches the caller. -/
theorem c7_exception_fallback (now : ℤ) (e : String) :
    analyze_smart_irrigation now (Except.error e) =
      get_fallback_irrigation_recommendation now ∧
    (analyze_smart_irrigation now (Except.error e)).needs_irrigation = false ∧
    (analyze_smart_irrigation now (Except.error e)).confidence = 50 ∧
    (analyze_smart_irrigation now (Except.error e)).reasoning =
      "Unable to complete smart irrigation analysis. Manual inspection recommended." ∧
    (analyze_smart_irrigation now (Except.error e)).error =
      some "Analysis failed - insufficient data or system error" :=
  ⟨rfl, rfl, rfl, rfl, rfl⟩

/-! ## The forecast generator and the ambient random state (C4, C5) -/

theorem map_headD_of_ne_nil {α β : Type} (f : α → β) (l : List α) (d : β) (e : α)
    (h : l ≠ []) : (l.map f).headD d = f (l.headD e) := by
  cases l with
  | nil => exact absurd rfl h
  | cons a as => rfl

theorem map_getLastD_of_ne_nil {α β : Type} (f : α → β) (l : List α) (d : β) (e : α)
    (h : l ≠ []) : (l.map f).getLastD d = f (l.getLastD e) := by
  rw [List.getLastD_eq_getLast?, List.getLastD_eq_getLast?, List.getLast?_map,
    List.getLast?_eq_getLast l h]
  simp

/-- Claim C4, counterexample: with no seed or generator parameter in the
source signature, the forecast depends on the process-global random
stream — two invocations on the identical one-day weather history but
under different ambient streams return different forecasts. -/
theorem c4_counterexample_global_random_dependence :
    generate_meteorological_forecast 0 (fun _ => 0) c4_history ≠
      generate_meteorological_forecast 0 (fun _ => 1) c4_history := by
  have hne : c4_history ≠ [] := by simp [c4_history]
  have hhead : ∀ rng : ℕ → ℚ,
      (generate_meteorological_forecast 0 rng c4_history).headD dummy_weather =
        forecast_day_entry 0 rng (c4_history.drop (c4_history.length - 14))
          (analyze_seasonal_patterns c4_history) 0 := by
    intro rng
    unfold generate_meteorological_forecast
    rw [if_neg hne]
    rfl
  have h0 : (forecast_day_entry 0 (fun _ => 0) (c4_history.drop (c4_history.length - 14))
      (analyze_seasonal_patterns c4_history) 0).temperature = 20 := by
    norm_num [forecast_day_entry, analyze_seasonal_patterns, c4_history, list_mean,
      HistDay.tempD, roundDec, roundHalfEven]
  have h1 : (forecast_day_entry 0 (fun _ => 1) (c4_history.drop (c4_history.length - 14))
      (analyze_seasonal_patterns c4_history) 0).temperature = 21 := by
    norm_num [forecast_day_entry, analyze_seasonal_patterns, c4_history, list_mean,
      HistDay.tempD, roundDec, roundHalfEven]
  intro h
  have h2 := congrArg (fun l => (l.headD dummy_weather).temperature) h
  simp only [hhead] at h2
  rw [h0, h1] at h2
  norm_num at h2

/-- Claim C4 amended: the source passes no generator or seed parameter —
the draws come from the process-global NumPy random state — but the
forecast depends on that state only through the 15 values drawn (five per
forecast day), so two invocations on identical weather histories whose
ambient streams agree on those draws (as after `np.random.seed` with the
same seed) produce identical forecasts. -/
theorem c4_forecast_reproducible_given_draws (now_day : ℤ) (rng1 rng2 : ℕ → ℚ)
    (weather_data : List HistDay) (hagree : ∀ k < 15, rng1 k = rng2 k) :
    generate_meteorological_forecast now_day rng1 weather_data =
      generate_meteorological_forecast now_day rng2 weather_data := by
  unfold generate_meteorological_forecast
  split_ifs with h
  · rfl
  · apply List.map_congr_left
    intro day hday
    have hday3 : day < 3 := List.mem_range.mp hday
    have e0 : rng1 (5 * day) = rng2 (5 * day) := hagree _ (by omega)
    have e1 : rng1 (5 * day + 1) = rng2 (5 * day + 1) := hagree _ (by omega)
    have e2 : rng1 (5 * day + 2) = rng2 (5 * day + 2) := hagree _ (by omega)
    have e3 : rng1 (5 * day + 3) = rng2 (5 * day + 3) := hagree _ (by omega)
    have e4 : rng1 (5 * day + 4) = rng2 (5 * day + 4) := hagree _ (by omega)
    simp only [forecast_day_entry, e0, e1, e2, e3, e4]

/-- Witness for C4: two ambient streams that agree on the 15 consumed
draws (and differ beyond them) yield the same forecast. -/
theorem c4_witness :
    (∀ k < 15, (fun _ : ℕ => (0 : ℚ)) k = (fun j : ℕ => if j < 15 then 0 else 7) k) ∧
    generate_meteorological_forecast 0 (fun _ => 0) c4_history =
      generate_meteorological_forecast 0 (fun j => if j < 15 then 0 else 7) c4_history :=
  ⟨fun k hk => by simp [hk], c4_forecast_reproducible_given_draws 0 (fun _ => 0)
    (fun j => if j < 15 then 0 else 7) c4_history (fun k hk => by simp [hk])⟩

/-- Claim C5, counterexample: on a concrete 30-day history the source's
seasonal temperature trend (endpoint difference over 30) is 1, while the
ordinary-least-squares regression slope the spec prescribes is 174/899. -/
theorem c5_counterexample_trend_not_regression_slope :
    (analyze_seasonal_patterns c5_history).1 ≠
      spec_linear_regression_slope (c5_history.map HistDay.tempD) := by
  have h1 : (analyze_seasonal_patterns c5_history).1 = 1 := by
    norm_num [analyze_seasonal_patterns, c5_history, c5_day0, c5_day30, HistDay.tempD,
      HistDay.humidityD]
  have h2 : spec_linear_regression_slope (c5_history.map HistDay.tempD) = 174 / 899 := by
    have hr : List.range 30 =
        [0, 1, 2, 3, 4, 5, 6, 7, 8, 9, 10, 11, 12, 13, 14, 15, 16, 17, 18, 19, 20,
         21, 22, 23, 24, 25, 26, 27, 28, 29] := rfl
    norm_num [spec_linear_regression_slope, c5_history, c5_day0, c5_day30,
      HistDay.tempD, list_mean, hr]
  rw [h1, h2]
  norm_num

theorem analyze_seasonal_patterns_eq (pre post : List HistDay) (hlen : post.length = 30) :
    analyze_seasonal_patterns (pre ++ post) =
      ((HistDay.tempD (post.getLastD dummy_hist_day) -
          HistDay.tempD (post.headD dummy_hist_day)) / 30,
        (HistDay.humidityD (post.getLastD dummy_hist_day) -
          HistDay.humidityD (post.headD dummy_hist_day)) / 30) := by
  have hpostne : post ≠ [] := by
    intro hp
    rw [hp] at hlen
    simp at hlen
  have hnot : ¬ (pre ++ post).length < 30 := by
    rw [List.length_append, hlen]
    omega
  have hdrop : (pre ++ post).drop ((pre ++ post).length - 30) = post := by
    rw [List.length_append, hlen, Nat.add_sub_cancel]
    exact List.drop_left pre post
  simp only [analyze_seasonal_patterns]
  rw [if_neg hnot, hdrop]
  rw [map_getLastD_of_ne_nil HistDay.tempD post 20 dummy_hist_day hpostne,
    map_headD_of_ne_nil HistDay.tempD post 20 dummy_hist_day hpostne,
    map_getLastD_of_ne_nil HistDay.humidityD post 50 dummy_hist_day hpostne,
    map_headD_of_ne_nil HistDay.humidityD post 50 dummy_hist_day hpostne]

theorem generate_forecast_getD (now_day : ℤ) (rng : ℕ → ℚ) (weather_data : List HistDay)
    (hne : weather_data ≠ []) (day : ℕ) (hday : day < 3) :
    (generate_meteorological_forecast now_day rng weather_data).getD day dummy_weather =
      forecast_day_entry now_day rng (weather_data.drop (weather_data.length - 14))
        (analyze_seasonal_patterns weather_data) day := by
  unfold generate_meteorological_forecast
  rw [if_neg hne]
  interval_cases day <;> rfl

/-- Claim C5 amended: the seasonal trend is the endpoint difference
(last − first)/30 over the last 30 days — not a least-squares regression
slope — and 0 when fewer than 30 days are available (enforced by
`analyze_seasonal_patterns` itself); temperature and humidity for loop
index `day ∈ {0,1,2}` (forecast day `day + 1`) equal
baseline + trend·day + noise, i.e. trend·(d−1) for forecast day `d`,
while rainfall is noise alone with no baseline or trend term. -/
theorem c5_trend_and_forecast_formula (now_day : ℤ) (rng : ℕ → ℚ)
    (weather_data pre post : List HistDay)
    (hsplit : weather_data = pre ++ post) (hlen : post.length = 30)
    (hne : weather_data ≠ []) :
    (analyze_seasonal_patterns weather_data).1 =
      (HistDay.tempD (post.getLastD dummy_hist_day) -
        HistDay.tempD (post.headD dummy_hist_day)) / 30 ∧
    (analyze_seasonal_patterns weather_data).2 =
      (HistDay.humidityD (post.getLastD dummy_hist_day) -
        HistDay.humidityD (post.headD dummy_hist_day)) / 30 ∧
    ∀ day < 3,
      ((generate_meteorological_forecast now_day rng weather_data).getD day
          dummy_weather).temperature =
        roundDec 1 (list_mean ((weather_data.drop (weather_data.length - 14)).map
          HistDay.tempD) +
          (analyze_seasonal_patterns weather_data).1 * day + rng (5 * day)) ∧
      ((generate_meteorological_forecast now_day rng weather_data).getD day
          dummy_weather).humidity =
        roundDec 1 (max 20 (min 100
          (list_mean ((weather_data.drop (weather_data.length - 14)).map
            HistDay.humidityD) +
            (analyze_seasonal_patterns weather_data).2 * day + rng (5 * day + 1)))) ∧
      ((generate_meteorological_forecast now_day rng weather_data).getD day
          dummy_weather).rainfall = roundDec 1 (max 0 (rng (5 * day + 2))) := by
  subst hsplit
  have h := analyze_seasonal_patterns_eq pre post hlen
  refine ⟨by rw [h], by rw [h], ?_⟩
  intro day hday
  rw [generate_forecast_getD now_day rng (pre ++ post) hne day hday]
  exact ⟨rfl, rfl, rfl⟩

/-- Witness for C5 at the concrete 30-day history and the zero stream. -/
theorem c5_witness :
    c5_history = [] ++ c5_history ∧ c5_history.length = 30 ∧ c5_history ≠ [] ∧
    ((analyze_seasonal_patterns c5_history).1 =
      (HistDay.tempD (c5_history.getLastD dummy_hist_day) -
        HistDay.tempD (c5_history.headD dummy_hist_day)) / 30 ∧
    (analyze_seasonal_patterns c5_history).2 =
      (HistDay.humidityD (c5_history.getLastD dummy_hist_day) -
        HistDay.humidityD (c5_history.headD dummy_hist_day)) / 30 ∧
    ∀ day < 3,
      ((generate_meteorological_forecast 0 (fun _ => 0) c5_history).getD day
          dummy_weather).temperature =
        roundDec 1 (list_mean ((c5_history.drop (c5_history.length - 14)).map
          HistDay.tempD) +
          (analyze_seasonal_patterns c5_history).1 * day + (fun _ : ℕ => (0 : ℚ)) (5 * day)) ∧
      ((generate_meteorological_forecast 0 (fun _ => 0) c5_history).getD day
          dummy_weather).humidity =
        roundDec 1 (max 20 (min 100
          (list_mean ((c5_history.drop (c5_history.length - 14)).map
            HistDay.humidityD) +
            (analyze_seasonal_patterns c5_history).2 * day +
            (fun _ : ℕ => (0 : ℚ)) (5 * day + 1)))) ∧
      ((generate_meteorological_forecast 0 (fun _ => 0) c5_history).getD day
          dummy_weather).rainfall =
        roundDec 1 (max 0 ((fun _ : ℕ => (0 : ℚ)) (5 * day + 2)))) :=
  ⟨rfl, rfl, by simp [c5_history],
    c5_trend_and_forecast_formula 0 (fun _ => 0) c5_history [] c5_history rfl rfl
      (by simp [c5_history])⟩
